import Mathlib

/-!
# Verification of the deployify-BE provisioning pipeline

Shallow embedding of the deployment service (an Express/dockerode
application).  External effects (the docker daemon, the ngrok control
plane, the WebSocket progress channel, the filesystem) are modelled as
explicit inputs: every fallible external call is an `Except String`
value (or a `Nat`-indexed family of them for calls made in a loop)
supplied by an oracle record, and the observable effects of a run are
collected in an explicit trace of events.  `Math.random` is modelled as
a stream `rng : Nat → Nat` of draws.  Strings that in the source carry
an apostrophe are written with the escape `\x27` for that character.
-/

set_option autoImplicit false

namespace Deployify

/-- One entry of a container's `Ports` array: dockerode exposes an
optional `PublicPort` field (absent or `0` is falsy in JS). -/
structure PortInfo where
  publicPort : Option Nat
  deriving DecidableEq, Repr

/-- One entry of `docker.listContainers()`: the `Names` array (each name
prefixed with `/` by the docker API) and the `Ports` array. -/
structure ContainerInfo where
  names : List String
  ports : List PortInfo
  deriving DecidableEq, Repr

/-- One entry of `docker.listImages()`: the `RepoTags` array (a `null`
`RepoTags` is modelled as the empty list, which the JS guard
`img.RepoTags && ...` treats identically). -/
structure ImageInfo where
  repoTags : List String
  deriving DecidableEq, Repr

/-! ## utils.js: getAvailablePort -/

/-- Constant `basePort` of `getAvailablePort` (utils.js). -/
def basePort : Nat := 30000

/-- Constant `maxPort` of `getAvailablePort` (utils.js). -/
def maxPort : Nat := 40000

/-- The `usedPorts` set built by `getAvailablePort`: every truthy
`PublicPort` of every listed container (`0` is falsy in JS and is not
added). -/
def usedPortsOf (cs : List ContainerInfo) : List Nat :=
  cs.flatMap fun c => c.ports.filterMap fun p =>
    match p.publicPort with
    | some n => if n = 0 then none else some n
    | none => none

/-- The `i`-th draw of the loop body
`Math.floor(Math.random() * (maxPort - basePort) + basePort)`:
`Math.random()` is in `[0, 1)`, so the draw is in `[basePort, maxPort)`;
the random stream is modelled by `rng`. -/
def drawAt (rng : Nat → Nat) (i : Nat) : Nat :=
  basePort + rng i % (maxPort - basePort)

/-- The `do { port = ... } while (usedPorts.has(port))` loop of
`getAvailablePort`, starting at draw index `i`.  The source loop has no
bound; `fuel` counts how many draws we are willing to observe, and
`none` means the loop has not terminated within `fuel` draws. -/
def portSearch (used : List Nat) (rng : Nat → Nat) : Nat → Nat → Option Nat
  | _, 0 => none
  | i, fuel + 1 =>
    let port := drawAt rng i
    if port ∈ used then portSearch used rng (i + 1) fuel else some port

/-- Model of `getAvailablePort` (utils.js): `docker.listContainers()` may itself
reject, in which case the rejection propagates (there is no handler in
the function); otherwise the used-port set is computed and the sampling
loop runs. -/
def getAvailablePort (enumeration : Except String (List ContainerInfo))
    (rng : Nat → Nat) (fuel : Nat) : Except String (Option Nat) :=
  match enumeration with
  | Except.error e => Except.error e
  | Except.ok cs => Except.ok (portSearch (usedPortsOf cs) rng 0 fuel)

/-! ## Observable events of a deployment run

The orchestration functions below are embedded as trace transformers:
every externally visible action appends one event.  `releaseEndpoint`
is in the action vocabulary so that statements about endpoint release
can be made; no function of the repository ever emits it, because the
source contains no call that deletes an ngrok reservation. -/

/-- Observable actions of the pipeline. -/
inductive Ev where
  /-- Event for `sendProgress(sessionId, percentage, message)` -/
  | progress (percentage : Nat) (message : String)
  /-- a port was drawn by `getAvailablePort` -/
  | allocPort (port : Nat)
  /-- a reservation was obtained from the ngrok control plane
  (`kind` is `"tcp"` or `"http"`) -/
  | reserveEndpoint (kind : String) (value : String)
  /-- an ngrok reservation was deleted (never emitted by any code path) -/
  | releaseEndpoint
  /-- Event: `docker.pull` was issued by `ensureImageExists` -/
  | pullImage (ref : String)
  /-- one `docker.buildImage` invocation for the given tag -/
  | build (tag : String)
  /-- Event: `docker.createContainer` + `start` was attempted for the name -/
  | createStart (name : String)
  /-- Event: the stop+remove teardown of `cleanupContainer(name, ...)`
  was carried out — its container-list lookup succeeded; the failures of
  stop and remove themselves are swallowed.  No event is emitted for an
  invocation whose lookup rejects (nothing was torn down; the rejection
  propagates). -/
  | cleanup (name : String)
  deriving DecidableEq, Repr

/-! ## dockerService.js -/

/-- Model of `imageExists` (dockerService.js): checks whether some listed image
has `` `${imageName}:latest` `` among its `RepoTags` — note the suffix is
appended even when `imageName` already carries a tag. -/
def imageExists (images : List ImageInfo) (imageName : String) : Bool :=
  images.any fun img => (imageName ++ ":latest") ∈ img.repoTags

/-- Model of `ensureImageExists` (dockerService.js).  Returns the call's result
together with whether a `docker.pull` was issued.  `pullResult` is the
outcome of the pull (the `followProgress` callback); on error the
function rejects with the wrapped message. -/
def ensureImageExists (images : List ImageInfo)
    (pullResult : Except String Unit) (imageName : String) :
    Except String Bool × Bool :=
  if imageExists images imageName then (Except.ok true, false)
  else
    match pullResult with
    | Except.ok _ => (Except.ok true, true)
    | Except.error _ =>
        (Except.error ("Failed to pull " ++ imageName ++ " image."), true)

/-- The `while (retries <= maxRetries)` loop of `buildImageWithRetry`
(dockerService.js).  `bc i` is the outcome of the `i`-th
`await docker.buildImage(...)` call; `fp i` is the outcome of the
promise returned from that attempt's `followProgress` (its `resolve`
value is the accumulated `buildLogs`).  The `try`/`catch` wraps only
the `buildImage` call: the function executes `return new Promise(...)`,
so a rejection of that promise is NOT caught by the `catch` and is
returned to the caller directly, without a further retry.  `fuel` is
`maxRetries + 1 - retries`, the number of loop iterations left; the
second component of the result counts `docker.buildImage` invocations
performed. -/
def buildLoop (bc : Nat → Except String Unit) (fp : Nat → Except String String)
    (lastErr : Option String) : Nat → Nat → Except String String × Nat
  | _, 0 =>
    (Except.error (lastErr.getD "Failed to build image after retries"), 0)
  | retries, fuel + 1 =>
    match bc retries with
    | Except.error e =>
        let r := buildLoop bc fp (some e) (retries + 1) fuel
        (r.1, r.2 + 1)
    | Except.ok _ =>
        match fp retries with
        | Except.error e => (Except.error e, 1)
        | Except.ok logs => (Except.ok logs, 1)

/-- Model of `buildImageWithRetry` (dockerService.js): the loop starts with
`retries = 0` and no recorded error, hence `maxRetries + 1` iterations
are available. -/
def buildImageWithRetry (bc : Nat → Except String Unit)
    (fp : Nat → Except String String) (maxRetries : Nat) :
    Except String String × Nat :=
  buildLoop bc fp none 0 (maxRetries + 1)

/-- Environment list `[...env, PORT=exposedPort]` built by `createAndStartContainer`
(dockerService.js): the caller-supplied environment with
`PORT=<exposedPort>` appended as the final entry. -/
def createdContainerEnv (env : List String) (exposedPort : Nat) : List String :=
  env ++ ["PORT=" ++ toString exposedPort]

/-- Result of one `cleanupContainer` call: the container list after the
call, the progress events it emitted, and its return value (the
`errorMessage` argument, returned unchanged). -/
structure CleanupOut where
  containers : List ContainerInfo
  events : List Ev
  ret : Option String
  deriving DecidableEq, Repr

/-- Model of `cleanupContainer` (dockerService.js).  The lookup
`docker.listContainers({ all: true })` is NOT inside a `try`, so a
rejection there propagates (`listC` is its outcome).  When the name is
found, `stop` is attempted with a swallowed failure (stopping does not
change membership in the `all: true` list, so `stopFails` has no
observable effect here), then `remove` is attempted with a swallowed
failure (`removeFails` decides whether the container disappears).  The
`(0, "Error: " ++ msg)` progress event is sent only when both
`sessionId` and `errorMessage` are truthy (non-null, non-empty). -/
def cleanupContainer (listC : Except String (List ContainerInfo))
    (_stopFails removeFails : Bool) (containerName : String)
    (sessionId : Option String) (errorMessage : Option String) :
    Except String CleanupOut :=
  match listC with
  | Except.error e => Except.error e
  | Except.ok containers =>
    let containers1 :=
      match containers.find? (fun c => ("/" ++ containerName) ∈ c.names) with
      | some c => if removeFails then containers else containers.erase c
      | none => containers
    let events :=
      match sessionId, errorMessage with
      | some s, some m =>
          if s ≠ "" ∧ m ≠ "" then [Ev.progress 0 ("Error: " ++ m)] else []
      | _, _ => []
    Except.ok ⟨containers1, events, errorMessage⟩

/-! ## Language configuration (part_005 getLanguageConfig, part_006 switch) -/

/-- JS `v || d` for an optional string (`null`/`undefined`/`""` are
falsy). -/
def jsOrString (v : Option String) (d : String) : String :=
  match v with
  | some s => if s = "" then d else s
  | none => d

/-- JS `v || d` for an optional number (`null`/`undefined`/`0` are
falsy). -/
def jsOrNat (v : Option Nat) (d : Nat) : Nat :=
  match v with
  | some n => if n = 0 then d else n
  | none => d

/-- The PHP script-name expression of `getLanguageConfig`:
`(runCommand ? runCommand.split(" ")[1] : null) || "index.php"`. -/
def phpScriptName (runCommand : Option String) : String :=
  match runCommand with
  | some rc =>
    if rc = "" then "index.php"
    else
      let t := (rc.splitOn " ").getD 1 ""
      if t = "" then "index.php" else t
  | none => "index.php"

/-- Build profile record of `getLanguageConfig` (part_005): fields
`baseImage`, `installCommand`, `startCommand`, `isAlpine`, `useYarn`
(absent in the source object means `false`), plus the `setupTools`
field the function attaches after the lookup. -/
structure LangConfig where
  baseImage : String
  installCommand : String
  startCommand : String
  isAlpine : Bool
  useYarn : Bool
  setupTools : String
  deriving DecidableEq, Repr

/-- The `configs` table lookup of `getLanguageConfig` (part_005) before
`setupTools` is attached; `configs[language] || configs.nodejs` makes
every unknown tag fall back to the `nodejs` entry. -/
def languageConfigsLookup (language : String) (internalPort : Nat)
    (runCommand : Option String) : LangConfig :=
  if language = "nodejs" then
    ⟨"node:23-alpine3.20", "npm install",
      jsOrString runCommand "node server.js", true, false, ""⟩
  else if language = "python" then
    ⟨"python:3.13.1-alpine3.21", "pip install -r requirements.txt",
      jsOrString runCommand
        ("python manage.py runserver 0.0.0.0:" ++ toString internalPort),
      true, false, ""⟩
  else if language = "php" then
    ⟨"php:8.2-cli", "composer install",
      "php -S 0.0.0.0:" ++ toString internalPort ++ " -t /var/www/html " ++
        phpScriptName runCommand,
      false, false, ""⟩
  else if language = "golang" then
    ⟨"golang:1.23.5-alpine3.21", "go mod download && go build -o /app/app .",
      "/app/app", true, false, ""⟩
  else if language = "nextjs" then
    ⟨"node:23-alpine3.20", "yarn install && yarn build",
      "PORT=" ++ toString internalPort ++ " yarn start", true, true, ""⟩
  else if language = "reactjs" then
    ⟨"node:23-alpine3.20", "yarn install && yarn build && npm install -g serve",
      "serve -s build -l " ++ toString internalPort, true, true, ""⟩
  else if language = "vuejs" then
    ⟨"node:23-alpine3.20", "yarn install && yarn build && npm install -g serve",
      "serve -s dist -l " ++ toString internalPort, true, true, ""⟩
  else if language = "angularjs" then
    ⟨"node:23-alpine3.20",
      "npm install -g @angular/cli && npm install && npm run build && npm install -g serve",
      "serve -s dist/angular/browser -l " ++ toString internalPort,
      true, false, ""⟩
  else if language = "html" then
    ⟨"node:23-alpine3.20", "npm install -g http-server",
      "http-server . -p " ++ toString internalPort, true, false, ""⟩
  else if language = "mongodb" then
    ⟨"mongo:7.0.5", "",
      "mongod --bind_ip 0.0.0.0 --port " ++ toString internalPort,
      false, false, ""⟩
  else
    ⟨"node:23-alpine3.20", "npm install",
      jsOrString runCommand "node server.js", true, false, ""⟩

/-- Model of `getLanguageConfig` (part_005): table lookup with nodejs
fallback, then `setupTools` chosen by `isAlpine`.  The source function
also receives `containerPort`, which it never reads. -/
def getLanguageConfig (language : String) (internalPort _containerPort : Nat)
    (runCommand : Option String) : LangConfig :=
  let c := languageConfigsLookup language internalPort runCommand
  ⟨c.baseImage, c.installCommand, c.startCommand, c.isAlpine, c.useYarn,
    if c.isAlpine then "apk add --no-cache curl unzip socat"
    else "apt-get update && apt-get install -y curl unzip socat"⟩

/-- Keys of the part_005 `configs` table. -/
def supportedLanguages5 : List String :=
  ["nodejs", "python", "php", "golang", "nextjs", "reactjs", "vuejs",
   "angularjs", "html", "mongodb"]

/-- The `switch (language)` of part_006 `deployApplication` resolving the
base image; the `default` branch answers
`res.status(400).json(\x7b error: "Unsupported language." \x7d)`, modelled
as `none`. -/
def baseImageFor6 (language : String) : Option String :=
  if language = "nodejs" then some "node:23-alpine3.20"
  else if language = "python" then some "python:3.13.1-alpine3.21"
  else if language = "php" then some "php:8.2-cli"
  else if language = "golang" then some "golang:1.23.5-alpine3.21"
  else if language = "nextjs" then some "node:23-alpine3.20"
  else if language = "reactjs" then some "node:23-alpine3.20"
  else if language = "vuejs" then some "node:23-alpine3.20"
  else if language = "angularjs" then some "node:23-alpine3.20"
  else if language = "html" then some "node:23-alpine3.20"
  else none

/-- Cases of the part_006 `switch (language)`. -/
def supportedLanguages6 : List String :=
  ["nodejs", "python", "php", "golang", "nextjs", "reactjs", "vuejs",
   "angularjs", "html"]

/-! ## deployApplication (part_005, services/deploymentService.js) -/

/-- One entry of the request's `files` array; `content` is the decoded
(base64) text, with `none` standing for a falsy `content` field. -/
structure FileEntry where
  path : String
  content : Option String
  deriving DecidableEq, Repr

/-- Outcome of a deployment request: the HTTP status, the `error` field
of the JSON body (the `message` field on success), and the trace of
observable actions. -/
structure DeployOut where
  status : Nat
  body : String
  trace : List Ev
  deriving DecidableEq, Repr

/-- Oracle for one run of part_005 `deployApplication`: the outcome of
each external call, in program order.  `bc i` / `fp i` are the per-attempt
outcomes inside `buildImageWithRetry` as in `buildLoop`. -/
structure AppOracle where
  listContainers : Except String (List ContainerInfo)
  port : Except String Nat
  reserve : Except String String
  images : List ImageInfo
  pull : Except String Unit
  bc : Nat → Except String Unit
  fp : Nat → Except String String
  listImages : Except String (List ImageInfo)
  start : Except String String

/-- The progress events of the file-processing loop of part_005:
`sendProgress(sessionId, Math.floor(15 + (i + 1) / files.length * 15), ...)`
for `i = 0 .. n-1`.  The percentage is modelled with exact rational
floor (`Nat` division); IEEE rounding of the source expression can
differ from it by at most one and is monotone either way. -/
def fileEvents (n : Nat) : List Ev :=
  (List.range n).map fun i =>
    Ev.progress (15 + 15 * (i + 1) / n)
      ("Processing file " ++ toString (i + 1) ++ "/" ++ toString n)

/-- The port-detection scan of the file loop: `detectedPort` is set by
the first file with truthy content whose text matches one of the
`portPatterns` with a port in `(0, 65536)`; `detect` abstracts the
regex scan of one file's text (the pattern list with its range check,
first match wins). -/
def detectPortInFiles (detect : String → Option Nat) :
    List FileEntry → Option Nat
  | [] => none
  | f :: fs =>
    match f.content with
    | some c =>
      match detect c with
      | some p => some p
      | none => detectPortInFiles detect fs
    | none => detectPortInFiles detect fs

/-- Environment passed by part_005 `deployApplication` to
`createAndStartContainer` (before the `PORT=<exposedPort>` entry that
the latter appends). -/
def deployEnv5 (internalPort containerPort : Nat) (tok : String) : List String :=
  ["PORT=" ++ toString internalPort,
   "INTERNAL_PORT=" ++ toString internalPort,
   "CONTAINER_PORT=" ++ toString containerPort,
   "NGROK_AUTHTOKEN=" ++ tok]

/-- Stage of part_005 `deployApplication` at
`sendProgress(sessionId, 85, ...)`: the container create+start and the
success response; a rejection lands in the `catch` (500, no cleanup). -/
def d5StartInstance (o : AppOracle) (containerName : String) (t : List Ev) :
    DeployOut :=
  let t8 := t ++ [Ev.progress 85 "Creating and starting container...",
                  Ev.createStart containerName]
  match o.start with
  | Except.error e => ⟨500, "Deployment failed: " ++ e, t8⟩
  | Except.ok st =>
    ⟨200, "Application deployed successfully",
      t8 ++ [Ev.progress 100 ("Deployment complete! Container is " ++ st)]⟩

/-- Stage of part_005 `deployApplication` verifying through
`docker.listImages()` that the tag was produced; a missing tag answers
`(0, "Error: Image build failed")` and 500. -/
def d5VerifyImage (o : AppOracle) (containerName : String) (t : List Ev) :
    DeployOut :=
  match o.listImages with
  | Except.error e => ⟨500, "Deployment failed: " ++ e, t⟩
  | Except.ok imagesAfter =>
    if imagesAfter.any fun img => (containerName ++ ":latest") ∈ img.repoTags
    then d5StartInstance o containerName t
    else ⟨500, "Docker image build failed",
      t ++ [Ev.progress 0 "Error: Image build failed"]⟩

/-- Stage of part_005 `deployApplication` at
`sendProgress(sessionId, 50, ...)`: `buildImageWithRetry` with its
default `maxRetries = 2` (one `build` event per `docker.buildImage`
invocation performed). -/
def d5Build (o : AppOracle) (containerName : String) (t : List Ev) :
    DeployOut :=
  let t6 := t ++ [Ev.progress 50 "Building Docker image..."]
  let built := buildImageWithRetry o.bc o.fp 2
  let t7 := t6 ++ List.replicate built.2 (Ev.build containerName)
  match built.1 with
  | Except.error e => ⟨500, "Deployment failed: " ++ e, t7⟩
  | Except.ok _ => d5VerifyImage o containerName t7

/-- Stage of part_005 `deployApplication` at
`sendProgress(sessionId, 40, ...)`: `ensureImageExists(config.baseImage)`. -/
def d5EnsureBase (o : AppOracle) (language containerName baseImage : String)
    (t : List Ev) : DeployOut :=
  let t4 := t ++ [Ev.progress 40
    ("Preparing Docker environment for " ++ language ++ "...")]
  let ensured := ensureImageExists o.images o.pull baseImage
  let t5 := t4 ++ (if ensured.2 then [Ev.pullImage baseImage] else [])
  match ensured.1 with
  | Except.error e => ⟨500, "Deployment failed: " ++ e, t5⟩
  | Except.ok _ => d5Build o containerName t5

/-- Stage of part_005 `deployApplication` from
`sendProgress(sessionId, 15, ...)`: the file-processing loop (progress
events and port detection), the `internalPort` default of 3000, and the
`getLanguageConfig` resolution. -/
def d5Files (o : AppOracle) (language containerName : String)
    (runCommand : Option String) (detect : String → Option Nat)
    (files : List FileEntry) (containerPort : Nat) (t : List Ev) : DeployOut :=
  let t3 := t ++ [Ev.progress 15 "Creating project directory..."] ++
    fileEvents files.length
  let internalPort := jsOrNat (detectPortInFiles detect files) 3000
  let config := getLanguageConfig language internalPort containerPort
    runCommand
  d5EnsureBase o language containerName config.baseImage t3

/-- Model of `deployApplication` (part_005), composed from the stage
functions above in source order.  The filesystem writes (project
directory, ngrok.yml, Dockerfile, start.sh, the Next.js config rewrite)
have no observable effect on the response or the event trace and are
not represented.  Every rejection inside the `try` lands in the single
`catch`, which answers `500 / "Deployment failed: " ++ message` and
performs no cleanup. -/
def deployApplication5 (tok projectName : String)
    (filesField : Option (List FileEntry)) (language : String)
    (runCommand : Option String) (detect : String → Option Nat)
    (o : AppOracle) : DeployOut :=
  if tok = "" then ⟨500, "Missing ngrok auth token configuration.", []⟩
  else if projectName = "" ∨ filesField.isNone ∨ language = "" then
    ⟨400, "Invalid request data.", []⟩
  else
    let files := filesField.getD []
    let containerName := "deployify-" ++ projectName
    let isMongoDB := language = "mongodb"
    match o.listContainers with
    | Except.error e => ⟨500, "Deployment failed: " ++ e, []⟩
    | Except.ok containers =>
      if containers.any fun c => ("/" ++ containerName) ∈ c.names then
        ⟨400, "Container \x27" ++ containerName ++
          "\x27 already exists. Please choose a different project name.", []⟩
      else
        let t1 := [Ev.progress 5 "Generating container port..."]
        match o.port with
        | Except.error e => ⟨500, "Deployment failed: " ++ e, t1⟩
        | Except.ok containerPort =>
          let t2 := t1 ++ [Ev.allocPort containerPort,
                           Ev.progress 10 "Creating Ngrok endpoint..."]
          match o.reserve with
          | Except.error e => ⟨500, "Deployment failed: " ++ e, t2⟩
          | Except.ok ngrokEndpoint =>
            d5Files o language containerName runCommand detect files
              containerPort
              (t2 ++ [Ev.reserveEndpoint
                (if isMongoDB then "tcp" else "http") ngrokEndpoint])

/-! ## deployMongoDB (part_001, services/mongoDeploymentService.js) -/

/-- One `cleanupContainer` invocation as seen by the orchestrator: the
outcome of that call's own `docker.listContainers({ all: true })`
lookup, and whether its (swallowed) stop and remove attempts fail. -/
structure CleanupCall where
  lookup : Except String (List ContainerInfo)
  stopFails : Bool
  removeFails : Bool

/-- Oracle for one run of part_001 `deployMongoDB`, in program order:
conflict-check listing, mongo image ensure (index + pull outcome), the
mongo port draw, the reserved TCP address, the mongo image build, the
mongo container create+start, the mongo-express image ensure, the
express port draw, the reserved domain, the express image build, the
express container create+start, and the three `cleanupContainer` call
sites of the rollback paths: `cleanup1` for the inner-catch call at the
domain-reservation failure, `cleanup2` and `cleanup3` for the two calls
of the outer catch block. -/
structure MongoOracle where
  listContainers : Except String (List ContainerInfo)
  images1 : List ImageInfo
  pull1 : Except String Unit
  port1 : Except String Nat
  reserveAddr : Except String String
  build1 : Except String Unit
  start1 : Except String Unit
  images2 : List ImageInfo
  pull2 : Except String Unit
  port2 : Except String Nat
  reserveDomain : Except String String
  build2 : Except String Unit
  start2 : Except String Unit
  cleanup1 : CleanupCall
  cleanup2 : CleanupCall
  cleanup3 : CleanupCall

/-- One awaited `cleanupContainer(name, sessionId, errorMessage)` call
inside `deployMongoDB`, run through the `cleanupContainer` model: a
rejection of its unguarded container-list lookup propagates to the
awaiting code; on success the observable events are the stop+remove
teardown plus the `(0, "Error: " ++ msg)` progress event that
`cleanupContainer` sends when both arguments are truthy, and the value
returned is the `errorMessage` argument. -/
def runCleanup (c : CleanupCall) (name : String) (sessionId : Option String)
    (errorMessage : Option String) :
    Except String (List Ev × Option String) :=
  match cleanupContainer c.lookup c.stopFails c.removeFails name sessionId
    errorMessage with
  | Except.error e => Except.error e
  | Except.ok out => Except.ok (Ev.cleanup name :: out.events, out.ret)

/-- The `catch (error)` block of `deployMongoDB`: it awaits
`cleanupContainer(mongoExpressName, sessionId, null)` and then responds
500 with the return value of `cleanupContainer(containerName,
sessionId, "Failed to deploy MongoDB: " + error.message)`.  Either
awaited call can itself reject (its unguarded container-list lookup,
see `cleanupContainer`); nothing catches a rejection raised inside this
catch block, so the handler's promise rejects and no HTTP response is
sent — such a run is represented by status `0` with the rejection
message as body. -/
def mongoCatch (o : MongoOracle) (pn : String) (sid : Option String)
    (t : List Ev) (m : String) : DeployOut :=
  let msg := "Failed to deploy MongoDB: " ++ m
  match runCleanup o.cleanup2 ("mongo-express-" ++ pn) sid none with
  | Except.error e => ⟨0, e, t⟩
  | Except.ok r2 =>
    match runCleanup o.cleanup3 ("deployify-" ++ pn) sid (some msg) with
    | Except.error e => ⟨0, e, t ++ r2.1⟩
    | Except.ok r3 =>
      ⟨500, match r3.2 with | some s => s | none => "", t ++ r2.1 ++ r3.1⟩

/-- Stage of part_001 `deployMongoDB` at
`sendProgress(sessionId, 85, ...)`: create+start of the mongo-express
container and the success response; a rejection lands in the catch-all. -/
def dmExpressStart (o : MongoOracle) (pn : String) (sid : Option String)
    (t : List Ev) : DeployOut :=
  let t11 := t ++ [Ev.progress 85 "Starting Mongo Express container...",
                   Ev.createStart ("mongo-express-" ++ pn)]
  match o.start2 with
  | Except.error e => mongoCatch o pn sid t11 e
  | Except.ok _ =>
    ⟨200, "MongoDB and Mongo Express are successfully set up.",
      t11 ++ [Ev.progress 100 "MongoDB deployment complete!"]⟩

/-- Stage of part_001 `deployMongoDB` at
`sendProgress(sessionId, 70, ...)` (the build event is appended by the
caller): outcome of the mongo-express image build. -/
def dmExpressBuild (o : MongoOracle) (pn : String) (sid : Option String)
    (t : List Ev) : DeployOut :=
  match o.build2 with
  | Except.error e => mongoCatch o pn sid t e
  | Except.ok _ => dmExpressStart o pn sid t

/-- Stage of part_001 `deployMongoDB` reserving the mongo-express
domain: a failure here first awaits
`cleanupContainer(containerName, sessionId, null)` — stop+remove of the
already-running MongoDB container, with no progress event and no
endpoint release — and then returns the 500 response carrying the
upstream message.  When that awaited cleanup itself rejects (its
container-list lookup fails), the rejection escapes this inner catch
and lands in the outer catch block, whose message then masks the
domain error. -/
def dmDomain (o : MongoOracle) (pn : String) (sid : Option String)
    (t : List Ev) : DeployOut :=
  match o.reserveDomain with
  | Except.error e =>
    match runCleanup o.cleanup1 ("deployify-" ++ pn) sid none with
    | Except.error e2 => mongoCatch o pn sid t e2
    | Except.ok r1 =>
      ⟨500, "Failed to create Ngrok domain for Mongo Express: " ++ e,
        t ++ r1.1⟩
  | Except.ok domain =>
    dmExpressBuild o pn sid
      (t ++ [Ev.reserveEndpoint "http" domain,
             Ev.progress 70 "Building Mongo Express container image...",
             Ev.build ("mongo-express-" ++ pn)])

/-- Stage of part_001 `deployMongoDB` drawing the mongo-express host
port, then `sendProgress(sessionId, 60, ...)`. -/
def dmExpressPort (o : MongoOracle) (pn : String) (sid : Option String)
    (t : List Ev) : DeployOut :=
  match o.port2 with
  | Except.error e => mongoCatch o pn sid t e
  | Except.ok p =>
    dmDomain o pn sid
      (t ++ [Ev.allocPort p,
             Ev.progress 60 "Creating Ngrok domain for Mongo Express..."])

/-- Stage of part_001 `deployMongoDB` at
`sendProgress(sessionId, 50, ...)`:
`ensureImageExists("mongo-express:latest")`. -/
def dmExpressEnsure (o : MongoOracle) (pn : String) (sid : Option String)
    (t : List Ev) : DeployOut :=
  let t7 := t ++ [Ev.progress 50 "Setting up Mongo Express..."]
  let ensured2 := ensureImageExists o.images2 o.pull2 "mongo-express:latest"
  let t8 := t7 ++
    (if ensured2.2 then [Ev.pullImage "mongo-express:latest"] else [])
  match ensured2.1 with
  | Except.error e => mongoCatch o pn sid t8 e
  | Except.ok _ => dmExpressPort o pn sid t8

/-- Stage of part_001 `deployMongoDB` at
`sendProgress(sessionId, 45, ...)`: create+start of the MongoDB
container. -/
def dmMongoStart (o : MongoOracle) (pn : String) (sid : Option String)
    (t : List Ev) : DeployOut :=
  let t6 := t ++ [Ev.progress 45 "Starting MongoDB container...",
                  Ev.createStart ("deployify-" ++ pn)]
  match o.start1 with
  | Except.error e => mongoCatch o pn sid t6 e
  | Except.ok _ => dmExpressEnsure o pn sid t6

/-- Stage of part_001 `deployMongoDB` at
`sendProgress(sessionId, 30/35, ...)`: the MongoDB image build (a plain
`docker.buildImage` + `followProgress`, no retry). -/
def dmMongoBuild (o : MongoOracle) (pn : String) (sid : Option String)
    (t : List Ev) : DeployOut :=
  let t5 := t ++
    [Ev.progress 30 "Creating MongoDB container with ngrok tunnel...",
     Ev.progress 35 "Building MongoDB container image...",
     Ev.build ("deployify-" ++ pn)]
  match o.build1 with
  | Except.error e => mongoCatch o pn sid t5 e
  | Except.ok _ => dmMongoStart o pn sid t5

/-- Stage of part_001 `deployMongoDB` reserving the MongoDB TCP
address: a failure here returns the 500 directly (no cleanup, no
terminal progress event). -/
def dmReserveAddr (o : MongoOracle) (pn : String) (sid : Option String)
    (t : List Ev) : DeployOut :=
  match o.reserveAddr with
  | Except.error e =>
    ⟨500, "Failed to create Ngrok reserved address: " ++ e, t⟩
  | Except.ok addr =>
    dmMongoBuild o pn sid (t ++ [Ev.reserveEndpoint "tcp" addr])

/-- Stage of part_001 `deployMongoDB` at
`sendProgress(sessionId, 15, ...)`: credentials plus the MongoDB host
port draw, then `sendProgress(sessionId, 25, ...)`. -/
def dmMongoPort (o : MongoOracle) (pn : String) (sid : Option String)
    (t : List Ev) : DeployOut :=
  let t3 := t ++ [Ev.progress 15 "Generating credentials..."]
  match o.port1 with
  | Except.error e => mongoCatch o pn sid t3 e
  | Except.ok p =>
    dmReserveAddr o pn sid
      (t3 ++ [Ev.allocPort p,
        Ev.progress 25 "Creating Ngrok reserved address for MongoDB..."])

/-- Stage of part_001 `deployMongoDB` at
`sendProgress(sessionId, 5, ...)`: `ensureImageExists("mongo:6.0")`. -/
def dmEnsureMongo (o : MongoOracle) (pn : String) (sid : Option String)
    (t : List Ev) : DeployOut :=
  let t1 := t ++ [Ev.progress 5 "Checking MongoDB image..."]
  let ensured1 := ensureImageExists o.images1 o.pull1 "mongo:6.0"
  let t2 := t1 ++ (if ensured1.2 then [Ev.pullImage "mongo:6.0"] else [])
  match ensured1.1 with
  | Except.error e => mongoCatch o pn sid t2 e
  | Except.ok _ => dmMongoPort o pn sid t2

/-- Model of `deployMongoDB` (part_001), composed from the stage
functions above in source order.  Filesystem writes and the generated
Dockerfiles are not represented (no observable effect on response or
trace); the random password is not modelled (it only parametrises env
strings and the success body). -/
def deployMongoDB (tok projectName : String) (sessionId : Option String)
    (o : MongoOracle) : DeployOut :=
  if projectName = "" then ⟨400, "Invalid request data.", []⟩
  else if tok = "" then ⟨500, "Missing ngrok auth token configuration.", []⟩
  else
    let containerName := "deployify-" ++ projectName
    match o.listContainers with
    | Except.error e => mongoCatch o projectName sessionId [] e
    | Except.ok containers =>
      if containers.any fun c => ("/" ++ containerName) ∈ c.names then
        ⟨400, "Container \x27" ++ containerName ++
          "\x27 already exists. Please choose a different project name.", []⟩
      else dmEnsureMongo o projectName sessionId []

/-! ## Progress-trace predicates -/

/-- Percentages of the progress events of a trace, in emission order. -/
def progressPcts (tr : List Ev) : List Nat :=
  tr.filterMap fun e =>
    match e with
    | Ev.progress p _ => some p
    | _ => none

/-- Drop a terminal `0` (the established terminal-failure signal) from a
percentage sequence. -/
def stripTerminalZero (l : List Nat) : List Nat :=
  match l.getLast? with
  | some 0 => l.dropLast
  | _ => l

/-- A trace's progress percentages are non-decreasing, apart from a
possible terminal-failure `0` event. -/
def ProgressOk (tr : List Ev) : Prop :=
  List.Chain' (· ≤ ·) (stripTerminalZero (progressPcts tr))

/-! ## Lemmas about the port-sampling loop -/

/-- Any port the sampling loop returns is a draw that it just checked
against the used set. -/
theorem portSearch_some_spec (used : List Nat) (rng : Nat → Nat) :
    ∀ fuel i p, portSearch used rng i fuel = some p →
      basePort ≤ p ∧ p < maxPort ∧ p ∉ used := by
  intro fuel
  induction fuel with
  | zero => intro i p h; simp [portSearch] at h
  | succ n ih =>
    intro i p h
    rw [portSearch] at h
    by_cases hmem : drawAt rng i ∈ used
    · simp only [hmem, if_pos] at h
      exact ih (i + 1) p h
    · simp only [hmem, if_neg, not_false_iff] at h
      obtain rfl : drawAt rng i = p := by simpa using h
      refine ⟨?_, ?_, hmem⟩
      · simp [drawAt, basePort]
      · have hlt : rng i % (maxPort - basePort) < maxPort - basePort :=
          Nat.mod_lt _ (by simp [basePort, maxPort])
        simp only [drawAt, basePort, maxPort] at hlt ⊢
        omega

/-- When every draw of the stream lies in the used set, the loop never
returns. -/
theorem portSearch_none_of_all_used (used : List Nat) (rng : Nat → Nat)
    (h : ∀ j, drawAt rng j ∈ used) :
    ∀ fuel i, portSearch used rng i fuel = none := by
  intro fuel
  induction fuel with
  | zero => intro i; simp [portSearch]
  | succ n ih => intro i; rw [portSearch]; simp [h i, ih (i + 1)]

/-- When some draw within the observed window misses the used set, the
loop returns. -/
theorem portSearch_some_of_free (used : List Nat) (rng : Nat → Nat) :
    ∀ fuel i, (∃ j, i ≤ j ∧ j < i + fuel ∧ drawAt rng j ∉ used) →
      ∃ p, portSearch used rng i fuel = some p := by
  intro fuel
  induction fuel with
  | zero => intro i ⟨j, hij, hj, _⟩; omega
  | succ n ih =>
    intro i ⟨j, hij, hj, hfree⟩
    rw [portSearch]
    by_cases hmem : drawAt rng i ∈ used
    · simp only [hmem, if_pos]
      refine ih (i + 1) ⟨j, ?_, by omega, hfree⟩
      rcases Nat.eq_or_lt_of_le hij with rfl | h
      · exact absurd hmem hfree
      · omega
    · exact ⟨drawAt rng i, by simp [hmem]⟩

/-- C3: for every observed container list, a port returned by
`getAvailablePort` lies in the configured range `[30000, 40000)` and is
not among the (truthy) public ports of the observed containers. -/
theorem getAvailablePort_range_fresh (cs : List ContainerInfo)
    (rng : Nat → Nat) (fuel p : Nat)
    (h : getAvailablePort (Except.ok cs) rng fuel = Except.ok (some p)) :
    basePort ≤ p ∧ p < maxPort ∧ p ∉ usedPortsOf cs := by
  have h' : portSearch (usedPortsOf cs) rng 0 fuel = some p := by
    simpa [getAvailablePort] using h
  exact portSearch_some_spec _ _ fuel 0 p h'

/-- Witness for C3: a concrete container list occupying 30000 and the
identity draw stream make the call return 30001, which is in range and
fresh. -/
theorem getAvailablePort_range_fresh_witness :
    basePort ≤ 30001 ∧ 30001 < maxPort ∧
      30001 ∉ usedPortsOf [⟨["/x"], [⟨some 30000⟩]⟩] :=
  getAvailablePort_range_fresh [⟨["/x"], [⟨some 30000⟩]⟩]
    (fun i => i) 5 30001 rfl

/-- The used-port set in which every port of the configured range is
taken (e.g. 10000 containers jointly binding all of 30000–39999). -/
def allRangePorts : List Nat := List.range' basePort (maxPort - basePort)

/-- Counterexample to C9: `getAvailablePort` does NOT terminate for
every observed set of used ports — when every port of the range is
bound, the `do/while` loop resamples forever (no draw ever leaves the
used set), so no amount of observed iterations produces a port. -/
theorem getAvailablePort_total_counterexample :
    ¬ (∀ (used : List Nat) (rng : Nat → Nat),
        ∃ fuel p, portSearch used rng 0 fuel = some p) := by
  intro h
  obtain ⟨fuel, p, hp⟩ := h allRangePorts (fun _ => 0)
  have hall : ∀ j, drawAt (fun _ => 0) j ∈ allRangePorts := by
    intro j
    have h1 : basePort ≤ drawAt (fun _ => 0) j := by simp [drawAt]
    have h2 : drawAt (fun _ => 0) j < maxPort := by
      simp [drawAt, basePort, maxPort]
    simp only [allRangePorts, List.mem_range']
    refine ⟨drawAt (fun _ => 0) j - basePort, by omega, by omega⟩
  rw [portSearch_none_of_all_used _ _ hall] at hp
  exact Option.noConfusion hp

/-- C9 (amended): `getAvailablePort` propagates a failure of the
used-port enumeration unchanged, and terminates with a port whenever
some draw of the random stream inside the observed window misses the
used set (in particular whenever any port of the range is free and the
stream eventually samples it); if every port of the range is used it
loops forever. -/
theorem getAvailablePort_amended (e : String) (cs : List ContainerInfo)
    (rng : Nat → Nat) (fuel : Nat) :
    getAvailablePort (Except.error e) rng fuel = Except.error e ∧
    ((∃ j, j < fuel ∧ drawAt rng j ∉ usedPortsOf cs) →
      ∃ p, getAvailablePort (Except.ok cs) rng fuel = Except.ok (some p)) := by
  constructor
  · rfl
  · intro ⟨j, hj, hfree⟩
    obtain ⟨p, hp⟩ :=
      portSearch_some_of_free (usedPortsOf cs) rng fuel 0
        ⟨j, Nat.zero_le j, by omega, hfree⟩
    exact ⟨p, by simp [getAvailablePort, hp]⟩

/-- Witness for C9 (amended) at a concrete error string, an empty
container list, the identity stream and one unit of fuel. -/
theorem getAvailablePort_amended_witness :
    getAvailablePort (Except.error "socket hang up") (fun i => i) 1 =
        Except.error "socket hang up" ∧
      ∃ p, getAvailablePort (Except.ok []) (fun i => i) 1 =
        Except.ok (some p) :=
  ⟨(getAvailablePort_amended "socket hang up" [] (fun i => i) 1).1,
   (getAvailablePort_amended "socket hang up" [] (fun i => i) 1).2
     ⟨0, by decide, by decide⟩⟩

/-! ## Lemmas about the build-retry loop -/

/-- When the first `n + 1` stream-creation calls all fail, the loop
performs them all and ends with the last error. -/
theorem buildLoop_all_fail (bc : Nat → Except String Unit)
    (fp : Nat → Except String String) (e : Nat → String) :
    ∀ n retries lastErr,
      (∀ j, j ≤ n → bc (retries + j) = Except.error (e (retries + j))) →
      buildLoop bc fp lastErr retries (n + 1) =
        (Except.error (e (retries + n)), n + 1) := by
  intro n
  induction n with
  | zero =>
    intro retries lastErr h
    have h0 := h 0 (Nat.le_refl 0)
    simp only [Nat.add_zero] at h0
    simp [buildLoop, h0]
  | succ n ih =>
    intro retries lastErr h
    have h0 := h 0 (Nat.zero_le _)
    simp only [Nat.add_zero] at h0
    rw [buildLoop, h0]
    dsimp only
    have := ih (retries + 1) (some (e retries))
      (fun j hj => by
        have := h (j + 1) (by omega)
        simpa [Nat.add_assoc, Nat.add_comm 1 j] using this)
    rw [this]
    simp [Nat.add_assoc, Nat.add_comm 1 n]

/-- When the first `k` stream-creation calls fail and the `k`-th
succeeds, the loop returns the outcome of that attempt's stream
following, after exactly `k + 1` invocations. -/
theorem buildLoop_reach_ok (bc : Nat → Except String Unit)
    (fp : Nat → Except String String) (e : Nat → String) :
    ∀ k retries fuel lastErr, k < fuel →
      (∀ j, j < k → bc (retries + j) = Except.error (e (retries + j))) →
      bc (retries + k) = Except.ok () →
      buildLoop bc fp lastErr retries fuel =
        (match fp (retries + k) with
         | Except.error m => (Except.error m, k + 1)
         | Except.ok logs => (Except.ok logs, k + 1)) := by
  intro k
  induction k with
  | zero =>
    intro retries fuel lastErr hk _ hok
    obtain ⟨f, rfl⟩ : ∃ f, fuel = f + 1 :=
      ⟨fuel - 1, by omega⟩
    simp only [Nat.add_zero] at hok
    rw [buildLoop, hok]
    cases h : fp retries <;> simp [h]
  | succ k ih =>
    intro retries fuel lastErr hk hfail hok
    obtain ⟨f, rfl⟩ : ∃ f, fuel = f + 1 := ⟨fuel - 1, by omega⟩
    have h0 := hfail 0 (Nat.succ_pos k)
    simp only [Nat.add_zero] at h0
    rw [buildLoop, h0]
    dsimp only
    have harg : retries + 1 + k = retries + (k + 1) := by omega
    have := ih (retries + 1) f (some (e retries)) (by omega)
      (fun j hj => by
        have := hfail (j + 1) (by omega)
        simpa [Nat.add_assoc, Nat.add_comm 1 j] using this)
      (by rw [harg]; exact hok)
    rw [this, harg]
    cases h : fp (retries + (k + 1)) <;> simp [h]

/-- Counterexample to C4: with `maxRetries = 2`, a build whose
`docker.buildImage` call succeeds but whose streamed build then fails
is rejected after a single attempt — the rejection of the returned
promise escapes the `try`, so the failing build is never retried and
the total attempt count is 1, not `maxRetries + 1 = 3`. -/
theorem buildRetry_counterexample :
    buildImageWithRetry (fun _ => Except.ok ())
        (fun _ => Except.error "The command /bin/sh -c npm install returned a non-zero code")
        2 =
      (Except.error "The command /bin/sh -c npm install returned a non-zero code",
        1) := rfl

/-- C4 (amended): the retry of `buildImageWithRetry` covers only
failures of the `docker.buildImage` invocation itself.  If the first
`maxRetries + 1` invocations all fail, the loop performs exactly
`maxRetries + 1` attempts and propagates the last underlying error;
if the `k`-th invocation (`k ≤ maxRetries`) is the first to succeed,
the call returns that attempt's streamed outcome — the logs when the
stream succeeds, and, without any further retry, the stream's error
when it fails — after exactly `k + 1` attempts. -/
theorem buildRetry_amended (bc : Nat → Except String Unit)
    (fp : Nat → Except String String) (maxRetries k : Nat)
    (e : Nat → String) (logs msg : String) :
    ((∀ i, i ≤ maxRetries → bc i = Except.error (e i)) →
      buildImageWithRetry bc fp maxRetries =
        (Except.error (e maxRetries), maxRetries + 1)) ∧
    (k ≤ maxRetries → (∀ i, i < k → bc i = Except.error (e i)) →
      bc k = Except.ok () → fp k = Except.ok logs →
      buildImageWithRetry bc fp maxRetries = (Except.ok logs, k + 1)) ∧
    (k ≤ maxRetries → (∀ i, i < k → bc i = Except.error (e i)) →
      bc k = Except.ok () → fp k = Except.error msg →
      buildImageWithRetry bc fp maxRetries = (Except.error msg, k + 1)) := by
  refine ⟨fun h => ?_, fun hk hfail hok hfp => ?_, fun hk hfail hok hfp => ?_⟩
  · have := buildLoop_all_fail bc fp e maxRetries 0 none
      (fun j hj => by simpa using h j hj)
    simpa [buildImageWithRetry] using this
  · have := buildLoop_reach_ok bc fp e k 0 (maxRetries + 1) none
      (by omega) (fun j hj => by simpa using hfail j hj) (by simpa using hok)
    rw [buildImageWithRetry, this]
    simp [hfp]
  · have := buildLoop_reach_ok bc fp e k 0 (maxRetries + 1) none
      (by omega) (fun j hj => by simpa using hfail j hj) (by simpa using hok)
    rw [buildImageWithRetry, this]
    simp [hfp]

/-- Witness for C4 (amended): `maxRetries = 2` with the first two
invocations failing and the third succeeding (the spec's Scenario C:
three attempts, then success), plus full exhaustion and the immediate
stream-failure case at the first attempt. -/
theorem buildRetry_amended_witness :
    buildImageWithRetry (fun _ => Except.error "daemon hiccup")
        (fun _ => Except.ok "logs") 2 =
      (Except.error "daemon hiccup", 3) ∧
    buildImageWithRetry (fun i => if i < 2 then Except.error "daemon hiccup"
        else Except.ok ()) (fun _ => Except.ok "logs") 2 =
      (Except.ok "logs", 3) ∧
    buildImageWithRetry (fun _ => Except.ok ())
        (fun _ => Except.error "stream failure") 2 =
      (Except.error "stream failure", 1) :=
  ⟨(buildRetry_amended (fun _ => Except.error "daemon hiccup")
      (fun _ => Except.ok "logs") 2 0 (fun _ => "daemon hiccup") "logs" "m").1
      (fun _ _ => rfl),
   (buildRetry_amended (fun i => if i < 2 then Except.error "daemon hiccup"
      else Except.ok ()) (fun _ => Except.ok "logs") 2 2
      (fun _ => "daemon hiccup") "logs" "m").2.1 (by omega)
      (fun i hi => by simp [hi]) (by simp) rfl,
   (buildRetry_amended (fun _ => Except.ok ())
      (fun _ => Except.error "stream failure") 2 0 (fun _ => "m") "logs"
      "stream failure").2.2 (by omega) (fun i hi => by omega) rfl rfl⟩

/-! ## C6: cleanupContainer -/

/-- Counterexample to C6: `cleanupContainer` is not failure-free for
every name — its `docker.listContainers({ all: true })` lookup is not
inside the `try`, so a rejection of the listing itself propagates to
the caller. -/
theorem cleanup_neverFails_counterexample :
    cleanupContainer (Except.error "connect ECONNREFUSED /var/run/docker.sock")
        false false "deployify-p" none none =
      Except.error "connect ECONNREFUSED /var/run/docker.sock" := rfl

/-- C6 (amended): provided the container-list lookup succeeds,
`cleanupContainer` never fails outward — for every container list
(including one without the name), every stop/remove failure pattern and
every session/message argument it returns `ok` with the `errorMessage`
argument as value, and invoking it again on the resulting state
succeeds as well. -/
theorem cleanup_amended (cs : List ContainerInfo) (sf1 rf1 sf2 rf2 : Bool)
    (name : String) (sid msg : Option String) :
    ∃ out1, cleanupContainer (Except.ok cs) sf1 rf1 name sid msg =
        Except.ok out1 ∧
      out1.ret = msg ∧
      ∃ out2, cleanupContainer (Except.ok out1.containers) sf2 rf2 name sid
        msg = Except.ok out2 :=
  ⟨_, rfl, rfl, _, rfl⟩

/-! ## C7: ensureImageExists -/

/-- Counterexample to C7: the reference `mongo:6.0` is present in the
local image index (it is literally among the `RepoTags`), yet
`ensureImageExists "mongo:6.0"` issues a pull (second component `true`):
`imageExists` looks for `mongo:6.0:latest`, which never matches a
reference that already carries a tag. -/
theorem ensureImage_pullIfAbsent_counterexample :
    ("mongo:6.0" ∈ (ImageInfo.mk ["mongo:6.0"]).repoTags) ∧
      ensureImageExists [ImageInfo.mk ["mongo:6.0"]] (Except.ok ())
        "mongo:6.0" = (Except.ok true, true) :=
  ⟨by decide, rfl⟩

/-- C7 (amended): `ensureImageExists` performs no pull and returns
`true` exactly when `<imageName>:latest` appears among the local
`RepoTags` (which for a reference already carrying a tag never
happens, so such references are pulled on every call); when that check
fails a pull is issued, and a failing pull rejects with the wrapped
message. -/
theorem ensureImage_amended (images : List ImageInfo)
    (pr : Except String Unit) (name e : String) :
    (imageExists images name = true →
      ensureImageExists images pr name = (Except.ok true, false)) ∧
    (imageExists images name = false →
      (ensureImageExists images pr name).2 = true) ∧
    (imageExists images name = false → pr = Except.error e →
      (ensureImageExists images pr name).1 =
        Except.error ("Failed to pull " ++ name ++ " image.")) := by
  refine ⟨fun h => ?_, fun h => ?_, fun h hpr => ?_⟩
  · simp [ensureImageExists, h]
  · cases pr <;> simp [ensureImageExists, h]
  · simp [ensureImageExists, h, hpr]

/-- Witness for C7 (amended): an untagged reference present as
`ngrok/ngrok:latest` is not pulled; with an empty index it is pulled,
and a failing pull surfaces the wrapped message. -/
theorem ensureImage_amended_witness :
    ensureImageExists [ImageInfo.mk ["ngrok/ngrok:latest"]] (Except.ok ())
        "ngrok/ngrok" = (Except.ok true, false) ∧
      (ensureImageExists [] (Except.ok ()) "ngrok/ngrok").2 = true ∧
      (ensureImageExists [] (Except.error "network down") "ngrok/ngrok").1 =
        Except.error "Failed to pull ngrok/ngrok image." :=
  ⟨(ensureImage_amended [ImageInfo.mk ["ngrok/ngrok:latest"]] (Except.ok ())
      "ngrok/ngrok" "network down").1 (by decide),
   (ensureImage_amended [] (Except.ok ()) "ngrok/ngrok" "network down").2.1
     (by decide),
   (ensureImage_amended [] (Except.error "network down") "ngrok/ngrok"
      "network down").2.2 (by decide) rfl⟩

/-! ## C10: the PORT entries of a created container's environment -/

/-- Predicate for an environment entry that sets `PORT` (its first five
characters are `PORT=`). -/
def isPortEntry (s : String) : Bool :=
  s.data.take 5 == ['P', 'O', 'R', 'T', '=']

theorem isPortEntry_port (x : String) :
    isPortEntry ("PORT=" ++ x) = true := by
  have h : ("PORT=" ++ x).data = 'P' :: 'O' :: 'R' :: 'T' :: '=' :: x.data := by
    rw [String.data_append]
    rfl
  simp [isPortEntry, h, List.take]

theorem isPortEntry_internal (x : String) :
    isPortEntry ("INTERNAL_PORT=" ++ x) = false := by
  have h : ("INTERNAL_PORT=" ++ x).data =
      'I' :: 'N' :: 'T' :: 'E' :: 'R' :: 'N' :: 'A' :: 'L' :: '_' :: 'P' ::
        'O' :: 'R' :: 'T' :: '=' :: x.data := by
    rw [String.data_append]
    rfl
  simp [isPortEntry, h, List.take]

theorem isPortEntry_container (x : String) :
    isPortEntry ("CONTAINER_PORT=" ++ x) = false := by
  have h : ("CONTAINER_PORT=" ++ x).data =
      'C' :: 'O' :: 'N' :: 'T' :: 'A' :: 'I' :: 'N' :: 'E' :: 'R' :: '_' ::
        'P' :: 'O' :: 'R' :: 'T' :: '=' :: x.data := by
    rw [String.data_append]
    rfl
  simp [isPortEntry, h, List.take]

theorem isPortEntry_ngrok (x : String) :
    isPortEntry ("NGROK_AUTHTOKEN=" ++ x) = false := by
  have h : ("NGROK_AUTHTOKEN=" ++ x).data =
      'N' :: 'G' :: 'R' :: 'O' :: 'K' :: '_' :: 'A' :: 'U' :: 'T' :: 'H' ::
        'T' :: 'O' :: 'K' :: 'E' :: 'N' :: '=' :: x.data := by
    rw [String.data_append]
    rfl
  simp [isPortEntry, h, List.take]

/-- C10: `createAndStartContainer` appends `PORT=<exposedPort>` as the
final environment entry after all caller-supplied entries; with the
part_005 caller environment (whose first entry is
`PORT=<internalPort>`) the created container's environment therefore
carries exactly two `PORT` entries, the exposed-port one last — they
name different ports whenever the internal and exposed ports differ. -/
theorem createStart_env_port_last (ip cp : Nat) (tok : String) :
    createdContainerEnv (deployEnv5 ip cp tok) cp =
      ["PORT=" ++ toString ip, "INTERNAL_PORT=" ++ toString ip,
       "CONTAINER_PORT=" ++ toString cp, "NGROK_AUTHTOKEN=" ++ tok,
       "PORT=" ++ toString cp] ∧
    (createdContainerEnv (deployEnv5 ip cp tok) cp).getLast? =
      some ("PORT=" ++ toString cp) ∧
    (createdContainerEnv (deployEnv5 ip cp tok) cp).countP isPortEntry = 2 := by
  refine ⟨rfl, rfl, ?_⟩
  simp [createdContainerEnv, deployEnv5, List.countP_cons, isPortEntry_port,
    isPortEntry_internal, isPortEntry_container, isPortEntry_ngrok]

/-! ## C5: unsupported language -/

/-- Counterexample to C5: the unknown tag `ruby` does not yield an
`Unsupported language.` error from the part_005 resolver — the lookup
`configs[language] || configs.nodejs` silently produces the full nodejs
build profile. -/
theorem unsupportedLanguage_counterexample :
    getLanguageConfig "ruby" 3000 30001 none =
      ⟨"node:23-alpine3.20", "npm install", "node server.js", true, false,
        "apk add --no-cache curl unzip socat"⟩ := rfl

/-- C5 (amended): an unknown language tag is answered with the 4xx
`Unsupported language.` response only in the part_006 variant (its
`switch` has no matching case, modelled by `baseImageFor6 = none`); in
the part_005 variant `getLanguageConfig` resolves every unknown tag to
the nodejs profile and the deployment proceeds. -/
theorem unsupportedLanguage_amended (language : String) (ip cp : Nat)
    (rc : Option String) :
    (language ∉ supportedLanguages6 → baseImageFor6 language = none) ∧
    (language ∉ supportedLanguages5 →
      getLanguageConfig language ip cp rc =
        getLanguageConfig "nodejs" ip cp rc) := by
  constructor
  · intro h
    simp only [supportedLanguages6, List.mem_cons, List.not_mem_nil, or_false,
      not_or] at h
    obtain ⟨h1, h2, h3, h4, h5, h6, h7, h8, h9⟩ := h
    simp [baseImageFor6, h1, h2, h3, h4, h5, h6, h7, h8, h9]
  · intro h
    simp only [supportedLanguages5, List.mem_cons, List.not_mem_nil, or_false,
      not_or] at h
    obtain ⟨h1, h2, h3, h4, h5, h6, h7, h8, h9, h10⟩ := h
    simp [getLanguageConfig, languageConfigsLookup, h1, h2, h3, h4, h5, h6,
      h7, h8, h9, h10]

/-- Witness for C5 (amended) at the concrete unknown tag `ruby`. -/
theorem unsupportedLanguage_amended_witness :
    baseImageFor6 "ruby" = none ∧
    getLanguageConfig "ruby" 8080 30001 none =
      getLanguageConfig "nodejs" 8080 30001 none :=
  ⟨(unsupportedLanguage_amended "ruby" 8080 30001 none).1 (by decide),
   (unsupportedLanguage_amended "ruby" 8080 30001 none).2 (by decide)⟩

/-! ## C2: the name-conflict gate -/

/-- C2: when the derived container name is already bound to an existing
container, part_005 `deployApplication` answers the 400 conflict
response and its trace is empty — in particular no port is drawn, no
endpoint is reserved, no image is pulled or built, and no instance is
created. -/
theorem deploy_conflict_no_resources (tok projectName : String)
    (fl : List FileEntry) (language : String) (rc : Option String)
    (detect : String → Option Nat) (o : AppOracle) (cs : List ContainerInfo)
    (htok : tok ≠ "") (hpn : projectName ≠ "") (hlang : language ≠ "")
    (hlist : o.listContainers = Except.ok cs)
    (hconf : ∃ c ∈ cs, ("/" ++ ("deployify-" ++ projectName)) ∈ c.names) :
    (deployApplication5 tok projectName (some fl) language rc detect o).status
        = 400 ∧
      (deployApplication5 tok projectName (some fl) language rc detect
        o).trace = [] ∧
      (deployApplication5 tok projectName (some fl) language rc detect
          o).body =
        "Container \x27" ++ ("deployify-" ++ projectName) ++
          "\x27 already exists. Please choose a different project name." := by
  have hany : (cs.any fun c =>
      ("/" ++ ("deployify-" ++ projectName)) ∈ c.names) = true := by
    rw [List.any_eq_true]
    obtain ⟨c, hc, hm⟩ := hconf
    exact ⟨c, hc, by simpa using hm⟩
  simp [deployApplication5, hlist, hany, htok, hpn, hlang]

/-- Concrete oracle in which the conflict check finds the name
`deployify-p` bound to an existing container. -/
def conflictOracle : AppOracle :=
  ⟨Except.ok [⟨["/deployify-p"], []⟩], Except.ok 30001, Except.ok "d", [],
   Except.ok (), fun _ => Except.ok (), fun _ => Except.ok "logs",
   Except.ok [], Except.ok "running"⟩

/-- Witness for C2 at the concrete conflicting request. -/
theorem deploy_conflict_no_resources_witness :
    (deployApplication5 "tok" "p" (some []) "nodejs" none (fun _ => none)
        conflictOracle).status = 400 ∧
      (deployApplication5 "tok" "p" (some []) "nodejs" none (fun _ => none)
        conflictOracle).trace = [] ∧
      (deployApplication5 "tok" "p" (some []) "nodejs" none (fun _ => none)
          conflictOracle).body =
        "Container \x27" ++ ("deployify-" ++ "p") ++
          "\x27 already exists. Please choose a different project name." :=
  deploy_conflict_no_resources "tok" "p" [] "nodejs" none (fun _ => none)
    conflictOracle [⟨["/deployify-p"], []⟩] (by decide) (by decide) (by decide)
    rfl ⟨⟨["/deployify-p"], []⟩, by decide, by decide⟩

/-! ## C1: rollback behaviour -/

/-- Traces free of rollback events: no `cleanupContainer` invocation
for any name, and no endpoint release. -/
def NoRollbackEv (tr : List Ev) : Prop :=
  (∀ x, Ev.cleanup x ∉ tr) ∧ Ev.releaseEndpoint ∉ tr

theorem noRollback_append (t s : List Ev) (ht : NoRollbackEv t)
    (hs : NoRollbackEv s) : NoRollbackEv (t ++ s) := by
  obtain ⟨h1, h2⟩ := ht
  obtain ⟨h3, h4⟩ := hs
  exact ⟨fun x => by simp [List.mem_append, h1 x, h3 x], by
    simp [List.mem_append, h2, h4]⟩

theorem noRollback_d5StartInstance (o : AppOracle) (cn : String) (t : List Ev)
    (h : NoRollbackEv t) : NoRollbackEv (d5StartInstance o cn t).trace := by
  obtain ⟨h1, h2⟩ := h
  cases hst : o.start <;>
    exact ⟨fun x => by simp [d5StartInstance, hst, h1 x],
      by simp [d5StartInstance, hst, h2]⟩

theorem noRollback_d5VerifyImage (o : AppOracle) (cn : String) (t : List Ev)
    (h : NoRollbackEv t) : NoRollbackEv (d5VerifyImage o cn t).trace := by
  obtain ⟨h1, h2⟩ := h
  cases hli : o.listImages with
  | error e => exact ⟨fun x => by simp [d5VerifyImage, hli, h1 x],
      by simp [d5VerifyImage, hli, h2]⟩
  | ok imgs =>
    by_cases hany : imgs.any fun img => (cn ++ ":latest") ∈ img.repoTags
    · have := noRollback_d5StartInstance o cn t ⟨h1, h2⟩
      simpa [d5VerifyImage, hli, hany] using this
    · exact ⟨fun x => by simp [d5VerifyImage, hli, hany, h1 x],
        by simp [d5VerifyImage, hli, hany, h2]⟩

theorem noRollback_d5Build (o : AppOracle) (cn : String) (t : List Ev)
    (h : NoRollbackEv t) : NoRollbackEv (d5Build o cn t).trace := by
  have h7 : NoRollbackEv (t ++ [Ev.progress 50 "Building Docker image..."] ++
      List.replicate (buildImageWithRetry o.bc o.fp 2).2
        (Ev.build cn)) := by
    refine noRollback_append _ _ (noRollback_append _ _ h ?_) ?_
    · exact ⟨fun x => by simp, by simp⟩
    · exact ⟨fun x => by simp [List.mem_replicate],
        by simp [List.mem_replicate]⟩
  cases hb : (buildImageWithRetry o.bc o.fp 2).1 with
  | error e =>
    have : (d5Build o cn t).trace = t ++
        [Ev.progress 50 "Building Docker image..."] ++
        List.replicate (buildImageWithRetry o.bc o.fp 2).2 (Ev.build cn) := by
      simp [d5Build, hb]
    rw [this]; exact h7
  | ok _ =>
    have : d5Build o cn t = d5VerifyImage o cn (t ++
        [Ev.progress 50 "Building Docker image..."] ++
        List.replicate (buildImageWithRetry o.bc o.fp 2).2 (Ev.build cn)) := by
      simp [d5Build, hb]
    rw [this]
    exact noRollback_d5VerifyImage _ _ _ h7

theorem noRollback_d5EnsureBase (o : AppOracle) (lang cn base : String)
    (t : List Ev) (h : NoRollbackEv t) :
    NoRollbackEv (d5EnsureBase o lang cn base t).trace := by
  have h5 : NoRollbackEv (t ++ [Ev.progress 40
      ("Preparing Docker environment for " ++ lang ++ "...")] ++
      (if (ensureImageExists o.images o.pull base).2 then
        [Ev.pullImage base] else [])) := by
    refine noRollback_append _ _ (noRollback_append _ _ h ?_) ?_
    · exact ⟨fun x => by simp, by simp⟩
    · cases (ensureImageExists o.images o.pull base).2 <;>
        exact ⟨fun x => by simp, by simp⟩
  cases he : (ensureImageExists o.images o.pull base).1 with
  | error e =>
    have : (d5EnsureBase o lang cn base t).trace = t ++ [Ev.progress 40
        ("Preparing Docker environment for " ++ lang ++ "...")] ++
        (if (ensureImageExists o.images o.pull base).2 then
          [Ev.pullImage base] else []) := by
      simp [d5EnsureBase, he]
    rw [this]; exact h5
  | ok _ =>
    have : d5EnsureBase o lang cn base t = d5Build o cn (t ++ [Ev.progress 40
        ("Preparing Docker environment for " ++ lang ++ "...")] ++
        (if (ensureImageExists o.images o.pull base).2 then
          [Ev.pullImage base] else [])) := by
      simp [d5EnsureBase, he]
    rw [this]
    exact noRollback_d5Build _ _ _ h5

theorem noRollback_d5Files (o : AppOracle) (lang cn : String)
    (rc : Option String) (detect : String → Option Nat)
    (files : List FileEntry) (cp : Nat) (t : List Ev) (h : NoRollbackEv t) :
    NoRollbackEv (d5Files o lang cn rc detect files cp t).trace := by
  refine noRollback_d5EnsureBase _ _ _ _ _
    (noRollback_append _ _ (noRollback_append _ _ h ?_) ?_)
  · exact ⟨fun x => by simp, by simp⟩
  · exact ⟨fun x => by simp [fileEvents], by simp [fileEvents]⟩

/-- Part_005 `deployApplication` calls `cleanupContainer` on no path at
all (its `catch` only formats the error), and no path of it releases a
reserved endpoint. -/
theorem deployApplication5_no_rollback (tok pn : String)
    (ff : Option (List FileEntry)) (lang : String) (rc : Option String)
    (detect : String → Option Nat) (o : AppOracle) :
    NoRollbackEv (deployApplication5 tok pn ff lang rc detect o).trace := by
  unfold deployApplication5
  dsimp only
  by_cases h1 : tok = ""
  · rw [if_pos h1]; exact ⟨fun x => by simp, by simp⟩
  rw [if_neg h1]
  by_cases h2 : pn = "" ∨ ff.isNone = true ∨ lang = ""
  · rw [if_pos h2]; exact ⟨fun x => by simp, by simp⟩
  rw [if_neg h2]
  cases hlc : o.listContainers with
  | error e => exact ⟨fun x => by simp, by simp⟩
  | ok containers =>
    dsimp only
    by_cases hc : (containers.any fun c =>
        ("/" ++ ("deployify-" ++ pn)) ∈ c.names) = true
    · rw [if_pos hc]; exact ⟨fun x => by simp, by simp⟩
    rw [if_neg hc]
    cases hp : o.port with
    | error e => exact ⟨fun x => by simp, by simp⟩
    | ok cp =>
      dsimp only
      cases hr : o.reserve with
      | error e => exact ⟨fun x => by simp, by simp⟩
      | ok ep =>
        dsimp only
        exact noRollback_d5Files _ _ _ _ _ _ _ _ ⟨fun x => by simp, by simp⟩

/-- A successful pull outcome makes `ensureImageExists` succeed,
whether or not the image was already present. -/
theorem ensureImage_ok_of_pull (images : List ImageInfo) (name : String) :
    (ensureImageExists images (Except.ok ()) name).1 = Except.ok true := by
  unfold ensureImageExists
  split <;> rfl

/-- A rejection of a cleanup call's container-list lookup propagates
out of `runCleanup` unchanged. -/
theorem runCleanup_error_prop (c : CleanupCall) (name : String)
    (sid msg : Option String) (e : String)
    (h : c.lookup = Except.error e) :
    runCleanup c name sid msg = Except.error e := by
  simp [runCleanup, cleanupContainer, h]

/-- With a successful lookup and a null `errorMessage`, a cleanup call
performs the teardown, emits no progress event, and returns null. -/
theorem runCleanup_none_ok (c : CleanupCall) (cl : List ContainerInfo)
    (name : String) (sid : Option String)
    (h : c.lookup = Except.ok cl) :
    runCleanup c name sid none = Except.ok ([Ev.cleanup name], none) := by
  cases sid <;> simp [runCleanup, cleanupContainer, h]

/-- With a successful lookup and a message, a cleanup call performs the
teardown, emits the `(0, "Error: " ++ m)` event exactly when both the
session and the message are truthy, and returns the message. -/
theorem runCleanup_some_ok (c : CleanupCall) (cl : List ContainerInfo)
    (name : String) (sid : Option String) (m : String)
    (h : c.lookup = Except.ok cl) :
    ∃ ev, runCleanup c name sid (some m) =
        Except.ok (Ev.cleanup name :: ev, some m) ∧
      (ev = [] ∨ ev = [Ev.progress 0 ("Error: " ++ m)]) := by
  rcases sid with _ | s
  · exact ⟨[], by simp [runCleanup, cleanupContainer, h], Or.inl rfl⟩
  · by_cases hcnd : s ≠ "" ∧ m ≠ ""
    · exact ⟨[Ev.progress 0 ("Error: " ++ m)],
        by simp [runCleanup, cleanupContainer, h, hcnd], Or.inr rfl⟩
    · exact ⟨[], by simp [runCleanup, cleanupContainer, h, hcnd], Or.inl rfl⟩

/-- On the domain-reservation failure path, whatever the outcomes of the
three cleanup lookups, the response trace only extends the trace
accumulated so far, and the extension contains no endpoint release and
no instance start. -/
theorem dmDomain_fail_shape (o : MongoOracle) (pn : String)
    (sid : Option String) (t : List Ev) (m : String)
    (hdom : o.reserveDomain = Except.error m) :
    ∃ s, (dmDomain o pn sid t).trace = t ++ s ∧
      Ev.releaseEndpoint ∉ s ∧ ∀ n, Ev.createStart n ∉ s := by
  cases hc1 : o.cleanup1.lookup with
  | ok cl1 =>
    exact ⟨[Ev.cleanup ("deployify-" ++ pn)],
      by simp [dmDomain, hdom,
        runCleanup_none_ok o.cleanup1 cl1 ("deployify-" ++ pn) sid hc1],
      by simp, by simp⟩
  | error e2 =>
    cases hc2 : o.cleanup2.lookup with
    | error e3 =>
      exact ⟨[], by simp [dmDomain, hdom, mongoCatch,
        runCleanup_error_prop o.cleanup1 ("deployify-" ++ pn) sid none e2 hc1,
        runCleanup_error_prop o.cleanup2 ("mongo-express-" ++ pn) sid none e3
          hc2],
        by simp, by simp⟩
    | ok cl2 =>
      cases hc3 : o.cleanup3.lookup with
      | error e4 =>
        exact ⟨[Ev.cleanup ("mongo-express-" ++ pn)],
          by simp [dmDomain, hdom, mongoCatch,
            runCleanup_error_prop o.cleanup1 ("deployify-" ++ pn) sid none e2
              hc1,
            runCleanup_none_ok o.cleanup2 cl2 ("mongo-express-" ++ pn) sid hc2,
            runCleanup_error_prop o.cleanup3 ("deployify-" ++ pn) sid
              (some ("Failed to deploy MongoDB: " ++ e2)) e4 hc3],
          by simp, by simp⟩
      | ok cl3 =>
        obtain ⟨ev, hev, hsh⟩ := runCleanup_some_ok o.cleanup3 cl3
          ("deployify-" ++ pn) sid ("Failed to deploy MongoDB: " ++ e2) hc3
        refine ⟨Ev.cleanup ("mongo-express-" ++ pn) ::
            Ev.cleanup ("deployify-" ++ pn) :: ev,
          by simp [dmDomain, hdom, mongoCatch,
            runCleanup_error_prop o.cleanup1 ("deployify-" ++ pn) sid none e2
              hc1,
            runCleanup_none_ok o.cleanup2 cl2 ("mongo-express-" ++ pn) sid hc2,
            hev], ?_, ?_⟩ <;>
          rcases hsh with rfl | rfl <;> simp

/-- On the domain-reservation failure path the response trace contains
an instance start exactly when the accumulated trace already did. -/
theorem dmDomain_fail_createStart (o : MongoOracle) (pn : String)
    (sid : Option String) (m : String)
    (hdom : o.reserveDomain = Except.error m) (t : List Ev) (x : String) :
    (Ev.createStart x ∈ (dmDomain o pn sid t).trace) ↔
      Ev.createStart x ∈ t := by
  obtain ⟨s, hs, _, hcs⟩ := dmDomain_fail_shape o pn sid t m hdom
  rw [hs]
  simp [List.mem_append, hcs x]

/-- On the domain-reservation failure path the response trace contains
an endpoint release exactly when the accumulated trace already did. -/
theorem dmDomain_fail_release (o : MongoOracle) (pn : String)
    (sid : Option String) (m : String)
    (hdom : o.reserveDomain = Except.error m) (t : List Ev) :
    (Ev.releaseEndpoint ∈ (dmDomain o pn sid t).trace) ↔
      Ev.releaseEndpoint ∈ t := by
  obtain ⟨s, hs, hrel, _⟩ := dmDomain_fail_shape o pn sid t m hdom
  rw [hs]
  simp [List.mem_append, hrel]

/-- Concrete oracle for `deployMongoDB` in which everything up to and
including the MongoDB container start succeeds, the mongo-express
domain reservation then fails, and the rollback cleanup lookups
succeed. -/
def domainFailOracle : MongoOracle :=
  ⟨Except.ok [], [], Except.ok (), Except.ok 30005,
   Except.ok "1.tcp.ngrok.io:12345", Except.ok (), Except.ok (),
   [], Except.ok (), Except.ok 30006, Except.error "domain quota reached",
   Except.ok (), Except.ok (),
   ⟨Except.ok [], false, false⟩, ⟨Except.ok [], false, false⟩,
   ⟨Except.ok [], false, false⟩⟩

/-- Like `domainFailOracle`, but the rollback cleanup of the MongoDB
container itself rejects (its container-list lookup fails); the outer
catch's own cleanup lookups succeed. -/
def maskFailOracle : MongoOracle :=
  ⟨Except.ok [], [], Except.ok (), Except.ok 30005,
   Except.ok "1.tcp.ngrok.io:12345", Except.ok (), Except.ok (),
   [], Except.ok (), Except.ok 30006, Except.error "domain quota reached",
   Except.ok (), Except.ok (),
   ⟨Except.error "socket hang up", false, false⟩,
   ⟨Except.ok [], false, false⟩, ⟨Except.ok [], false, false⟩⟩

/-- Counterexample to C1: in the Scenario-D run (domain reservation for
the admin UI fails after the data-service instance is running) a tunnel
endpoint was acquired in an earlier stage, yet the rollback releases no
endpoint — the repository has no reservation-release call at all — so
the orchestrator does not unwind every externally acquired resource. -/
theorem mongo_rollback_counterexample :
    Ev.reserveEndpoint "tcp" "1.tcp.ngrok.io:12345" ∈
        (deployMongoDB "tok" "p" (some "s1") domainFailOracle).trace ∧
      Ev.releaseEndpoint ∉
        (deployMongoDB "tok" "p" (some "s1") domainFailOracle).trace ∧
      (deployMongoDB "tok" "p" (some "s1") domainFailOracle).status = 500 := by
  refine ⟨?_, ?_, rfl⟩ <;> decide

/-- C1 (amended): when the admin-UI (mongo-express) domain reservation
fails after the data-service (MongoDB) instance was already started,
then — provided the rollback cleanup's own container-list lookup
succeeds — the data-service container is stopped and removed via
`cleanupContainer` and the 500 response carries the upstream
provisioning error; if instead that awaited cleanup rejects, the
rejection falls to the outer catch, whose response (when its own
cleanup lookups succeed) is a 500 whose body carries the cleanup-lookup
error and masks the domain error.  In every case the data-service
instance had been started and no reserved tunnel endpoint is ever
released (the code has no release call); and the part_005
`deployApplication` never invokes `cleanupContainer` on any path. -/
theorem mongo_rollback_amended (tok pn : String) (sid : Option String)
    (o : MongoOracle) (cs : List ContainerInfo) (p1 p2 : Nat) (addr m : String)
    (htok : tok ≠ "") (hpn : pn ≠ "")
    (hlist : o.listContainers = Except.ok cs)
    (hnoconf : (cs.any fun c =>
      ("/" ++ ("deployify-" ++ pn)) ∈ c.names) = false)
    (hpull1 : o.pull1 = Except.ok ()) (hport1 : o.port1 = Except.ok p1)
    (haddr : o.reserveAddr = Except.ok addr)
    (hbuild1 : o.build1 = Except.ok ()) (hstart1 : o.start1 = Except.ok ())
    (hpull2 : o.pull2 = Except.ok ()) (hport2 : o.port2 = Except.ok p2)
    (hdom : o.reserveDomain = Except.error m) :
    (∀ cl1 : List ContainerInfo, o.cleanup1.lookup = Except.ok cl1 →
      (deployMongoDB tok pn sid o).status = 500 ∧
        (deployMongoDB tok pn sid o).body =
          "Failed to create Ngrok domain for Mongo Express: " ++ m ∧
        Ev.cleanup ("deployify-" ++ pn) ∈
          (deployMongoDB tok pn sid o).trace) ∧
      (∀ (e2 : String) (cl2 cl3 : List ContainerInfo),
        o.cleanup1.lookup = Except.error e2 →
        o.cleanup2.lookup = Except.ok cl2 →
        o.cleanup3.lookup = Except.ok cl3 →
        (deployMongoDB tok pn sid o).status = 500 ∧
          (deployMongoDB tok pn sid o).body =
            "Failed to deploy MongoDB: " ++ e2) ∧
      Ev.createStart ("deployify-" ++ pn) ∈
        (deployMongoDB tok pn sid o).trace ∧
      Ev.releaseEndpoint ∉ (deployMongoDB tok pn sid o).trace ∧
      (∀ (tok2 pn2 : String) (ff : Option (List FileEntry)) (lang : String)
        (rc : Option String) (detect : String → Option Nat) (o2 : AppOracle)
        (x : String),
        Ev.cleanup x ∉
          (deployApplication5 tok2 pn2 ff lang rc detect o2).trace) := by
  have e1 : (ensureImageExists o.images1 o.pull1 "mongo:6.0").1 =
      Except.ok true := by
    rw [hpull1]; exact ensureImage_ok_of_pull _ _
  have e2 : (ensureImageExists o.images2 o.pull2 "mongo-express:latest").1 =
      Except.ok true := by
    rw [hpull2]; exact ensureImage_ok_of_pull _ _
  refine ⟨fun cl1 hcl1 => ?_, fun e2x cl2 cl3 hcl1 hcl2 hcl3 => ?_, ?_, ?_,
    fun tok2 pn2 ff lang rc detect o2 x =>
      (deployApplication5_no_rollback tok2 pn2 ff lang rc detect o2).1 x⟩
  · cases hb1 : (ensureImageExists o.images1 o.pull1 "mongo:6.0").2 <;>
    cases hb2 :
        (ensureImageExists o.images2 o.pull2 "mongo-express:latest").2 <;>
      simp [deployMongoDB, dmEnsureMongo, dmMongoPort, dmReserveAddr,
        dmMongoBuild, dmMongoStart, dmExpressEnsure, dmExpressPort, dmDomain,
        hlist, hnoconf, e1, e2, hb1, hb2, hport1, haddr, hbuild1, hstart1,
        hport2, hdom, htok, hpn,
        runCleanup_none_ok o.cleanup1 cl1 ("deployify-" ++ pn) sid hcl1]
  · obtain ⟨ev, hev, hsh⟩ := runCleanup_some_ok o.cleanup3 cl3
      ("deployify-" ++ pn) sid ("Failed to deploy MongoDB: " ++ e2x) hcl3
    cases hb1 : (ensureImageExists o.images1 o.pull1 "mongo:6.0").2 <;>
    cases hb2 :
        (ensureImageExists o.images2 o.pull2 "mongo-express:latest").2 <;>
      simp [deployMongoDB, dmEnsureMongo, dmMongoPort, dmReserveAddr,
        dmMongoBuild, dmMongoStart, dmExpressEnsure, dmExpressPort, dmDomain,
        mongoCatch, hlist, hnoconf, e1, e2, hb1, hb2, hport1, haddr, hbuild1,
        hstart1, hport2, hdom, htok, hpn,
        runCleanup_error_prop o.cleanup1 ("deployify-" ++ pn) sid none e2x
          hcl1,
        runCleanup_none_ok o.cleanup2 cl2 ("mongo-express-" ++ pn) sid hcl2,
        hev]
  · cases hb1 : (ensureImageExists o.images1 o.pull1 "mongo:6.0").2 <;>
    cases hb2 :
        (ensureImageExists o.images2 o.pull2 "mongo-express:latest").2 <;>
      simp [deployMongoDB, dmEnsureMongo, dmMongoPort, dmReserveAddr,
        dmMongoBuild, dmMongoStart, dmExpressEnsure, dmExpressPort,
        hlist, hnoconf, e1, e2, hb1, hb2, hport1, haddr, hbuild1, hstart1,
        hport2, htok, hpn, dmDomain_fail_createStart o pn sid m hdom]
  · cases hb1 : (ensureImageExists o.images1 o.pull1 "mongo:6.0").2 <;>
    cases hb2 :
        (ensureImageExists o.images2 o.pull2 "mongo-express:latest").2 <;>
      simp [deployMongoDB, dmEnsureMongo, dmMongoPort, dmReserveAddr,
        dmMongoBuild, dmMongoStart, dmExpressEnsure, dmExpressPort,
        hlist, hnoconf, e1, e2, hb1, hb2, hport1, haddr, hbuild1, hstart1,
        hport2, htok, hpn, dmDomain_fail_release o pn sid m hdom]

/-- Witness for C1 (amended): the Scenario-D oracle with succeeding
cleanup lookups yields the upstream-error 500 with the teardown of the
data-service container, while the oracle whose rollback cleanup lookup
rejects yields the masked 500; in both, the data-service instance was
started and nothing releases an endpoint. -/
theorem mongo_rollback_amended_witness :
    ((deployMongoDB "tok" "p" (some "s1") domainFailOracle).status = 500 ∧
      (deployMongoDB "tok" "p" (some "s1") domainFailOracle).body =
        "Failed to create Ngrok domain for Mongo Express: " ++
          "domain quota reached" ∧
      Ev.cleanup ("deployify-" ++ "p") ∈
        (deployMongoDB "tok" "p" (some "s1") domainFailOracle).trace) ∧
    ((deployMongoDB "tok" "p" (some "s1") maskFailOracle).status = 500 ∧
      (deployMongoDB "tok" "p" (some "s1") maskFailOracle).body =
        "Failed to deploy MongoDB: " ++ "socket hang up") ∧
    Ev.createStart ("deployify-" ++ "p") ∈
      (deployMongoDB "tok" "p" (some "s1") domainFailOracle).trace ∧
    Ev.releaseEndpoint ∉
      (deployMongoDB "tok" "p" (some "s1") domainFailOracle).trace :=
  ⟨(mongo_rollback_amended "tok" "p" (some "s1") domainFailOracle [] 30005
      30006 "1.tcp.ngrok.io:12345" "domain quota reached" (by decide)
      (by decide) rfl (by decide) rfl rfl rfl rfl rfl rfl rfl rfl).1 [] rfl,
   (mongo_rollback_amended "tok" "p" (some "s1") maskFailOracle [] 30005
      30006 "1.tcp.ngrok.io:12345" "domain quota reached" (by decide)
      (by decide) rfl (by decide) rfl rfl rfl rfl rfl rfl rfl rfl).2.1
      "socket hang up" [] [] rfl rfl rfl,
   (mongo_rollback_amended "tok" "p" (some "s1") domainFailOracle [] 30005
      30006 "1.tcp.ngrok.io:12345" "domain quota reached" (by decide)
      (by decide) rfl (by decide) rfl rfl rfl rfl rfl rfl rfl rfl).2.2.1,
   (mongo_rollback_amended "tok" "p" (some "s1") domainFailOracle [] 30005
      30006 "1.tcp.ngrok.io:12345" "domain quota reached" (by decide)
      (by decide) rfl (by decide) rfl rfl rfl rfl rfl rfl rfl rfl).2.2.2.1⟩

/-! ## C8: progress-percentage toolkit -/

theorem progressPcts_append (a b : List Ev) :
    progressPcts (a ++ b) = progressPcts a ++ progressPcts b := by
  simp [progressPcts]

theorem progressPcts_replicate_build (k : Nat) (tag : String) :
    progressPcts (List.replicate k (Ev.build tag)) = [] := by
  induction k with
  | zero => rfl
  | succ n ih => simp [progressPcts, List.replicate_succ, ih]

theorem progressPcts_pull_ite (c : Prop) [Decidable c] (r : String) :
    progressPcts (if c then [Ev.pullImage r] else []) = [] := by
  split <;> rfl

theorem progressPcts_fileEvents (n : Nat) :
    progressPcts (fileEvents n) =
      (List.range n).map fun i => 15 + 15 * (i + 1) / n := by
  unfold fileEvents
  have key : ∀ l : List Nat,
      progressPcts (l.map fun i => Ev.progress (15 + 15 * (i + 1) / n)
        ("Processing file " ++ toString (i + 1) ++ "/" ++ toString n)) =
      l.map fun i => 15 + 15 * (i + 1) / n := by
    intro l
    induction l with
    | nil => rfl
    | cons a as ih => simpa [progressPcts] using ih
  exact key (List.range n)

theorem stripTerminalZero_concat_zero (l : List Nat) :
    stripTerminalZero (l ++ [0]) = l := by
  unfold stripTerminalZero
  rw [List.getLast?_concat]
  simp

/-- Invariant threaded through the stages: the progress percentages so
far form a non-decreasing sequence whose last element (if any) is at
most `k`. -/
def PctsLe (t : List Ev) (k : Nat) : Prop :=
  List.Chain' (· ≤ ·) (progressPcts t) ∧
    ∀ x ∈ (progressPcts t).getLast?, x ≤ k

theorem pctsLe_nil (k : Nat) : PctsLe [] k := by
  constructor <;> simp [progressPcts]

theorem pctsLe_mono (t : List Ev) (k k2 : Nat) (h : PctsLe t k)
    (hk : k ≤ k2) : PctsLe t k2 :=
  ⟨h.1, fun x hx => le_trans (h.2 x hx) hk⟩

/-- Appending a chunk whose progress percentages are themselves a
non-decreasing run from at least `k` up to `p` preserves the invariant. -/
theorem pctsLe_extend (t l : List Ev) (k p : Nat) (h : PctsLe t k)
    (hchunk : List.Chain' (· ≤ ·) (progressPcts l))
    (hfirst : ∀ y ∈ (progressPcts l).head?, k ≤ y)
    (hlast : (progressPcts l).getLast? = some p) :
    PctsLe (t ++ l) p := by
  obtain ⟨hch, hlastT⟩ := h
  constructor
  · rw [progressPcts_append, List.chain'_append]
    exact ⟨hch, hchunk, fun x hx y hy =>
      le_trans (hlastT x hx) (hfirst y hy)⟩
  · intro x hx
    rw [progressPcts_append] at hx
    have hne : progressPcts l ≠ [] := by
      intro hnil; rw [hnil] at hlast; exact Option.noConfusion hlast
    rw [List.getLast?_append_of_ne_nil _ hne] at hx
    rw [hlast] at hx
    simp at hx
    omega

/-- Appending a chunk with no progress events preserves the invariant. -/
theorem pctsLe_silent (t l : List Ev) (k : Nat) (h : PctsLe t k)
    (hl : progressPcts l = []) : PctsLe (t ++ l) k := by
  obtain ⟨hch, hlastT⟩ := h
  constructor
  · rw [progressPcts_append, hl, List.append_nil]; exact hch
  · rw [progressPcts_append, hl, List.append_nil]; exact hlastT

theorem filePcts_mem (n x : Nat)
    (hx : x ∈ (List.range n).map fun i => 15 + 15 * (i + 1) / n) :
    15 ≤ x ∧ x ≤ 30 := by
  rw [List.mem_map] at hx
  obtain ⟨i, hi, rfl⟩ := hx
  rw [List.mem_range] at hi
  refine ⟨Nat.le_add_right 15 _, ?_⟩
  have h1 : 15 * (i + 1) ≤ 15 * n := Nat.mul_le_mul_left 15 (by omega)
  have h2 : 15 * (i + 1) / n ≤ 15 * n / n := Nat.div_le_div_right h1
  have h3 : 15 * n / n = 15 := Nat.mul_div_cancel 15 (by omega)
  calc 15 + 15 * (i + 1) / n ≤ 15 + 15 * n / n :=
        Nat.add_le_add_left h2 15
    _ = 30 := by rw [h3]

theorem filePcts_chain (n : Nat) :
    List.Chain' (· ≤ ·) ((List.range n).map fun i => 15 + 15 * (i + 1) / n) := by
  rw [List.chain'_map]
  cases n with
  | zero => simp
  | succ m =>
    rw [List.chain'_range_succ]
    intro i _
    have h : 15 * (i + 1) / (m + 1) ≤ 15 * (i + 1 + 1) / (m + 1) :=
      Nat.div_le_div_right (Nat.mul_le_mul_left 15 (by omega))
    exact Nat.add_le_add_left h 15

/-- Processing the file loop lifts the invariant bound to 30 (the loop's
final percentage), provided the previous bound was at most 15. -/
theorem pctsLe_fileEvents (t : List Ev) (k n : Nat) (h : PctsLe t k)
    (hk : k ≤ 15) : PctsLe (t ++ fileEvents n) 30 := by
  cases n with
  | zero => exact pctsLe_mono _ _ _ (pctsLe_silent t _ k h (by rfl)) (by omega)
  | succ m =>
    cases hl : ((List.range (m + 1)).map fun i =>
        15 + 15 * (i + 1) / (m + 1)).getLast? with
    | none =>
      exfalso
      rw [List.getLast?_eq_none_iff] at hl
      simp at hl
    | some p =>
      have hmem : p ∈ (List.range (m + 1)).map fun i =>
          15 + 15 * (i + 1) / (m + 1) := by
        obtain ⟨hne, heq⟩ := List.mem_getLast?_eq_getLast (by rw [hl]; rfl)
        rw [heq]
        exact List.getLast_mem hne
      have hp : p ≤ 30 := (filePcts_mem (m + 1) p hmem).2
      have := pctsLe_extend t (fileEvents (m + 1)) k p
        (pctsLe_mono t k k h (le_refl k))
        (by rw [progressPcts_fileEvents]; exact filePcts_chain (m + 1))
        (by
          rw [progressPcts_fileEvents]
          intro y hy
          exact le_trans hk
            (filePcts_mem (m + 1) y (List.mem_of_mem_head? hy)).1)
        (by rw [progressPcts_fileEvents]; exact hl)
      exact pctsLe_mono _ _ _ this hp

/-! ## C8: per-stage progress lemmas -/

/-- What the progress claim asserts of one run: percentages are
non-decreasing apart from a terminal-failure `0`, and a 200 response
ends at 100. -/
def ProgressSpec (d : DeployOut) : Prop :=
  ProgressOk d.trace ∧
    (d.status = 200 → (progressPcts d.trace).getLast? = some 100)

theorem progressOk_of_pctsLe (t : List Ev) (k : Nat) (h : PctsLe t k) :
    ProgressOk t := by
  obtain ⟨hch, _⟩ := h
  unfold ProgressOk stripTerminalZero
  rcases hl : (progressPcts t).getLast? with _ | p
  · exact hch
  · cases p with
    | zero => exact hch.init
    | succ q => exact hch

theorem progressOk_append_zero (t l : List Ev) (k : Nat) (h : PctsLe t k)
    (hl : progressPcts l = [0]) : ProgressOk (t ++ l) := by
  unfold ProgressOk
  have hp : progressPcts (t ++ l) = progressPcts t ++ [0] := by
    rw [progressPcts_append, hl]
  rw [hp, stripTerminalZero_concat_zero]
  exact h.1

theorem progressSpec_fail_pcts (d : DeployOut) (t : List Ev) (k : Nat)
    (h : PctsLe t k) (htr : d.trace = t) (hs : d.status ≠ 200) :
    ProgressSpec d :=
  ⟨by rw [htr]; exact progressOk_of_pctsLe _ k h, fun hh => absurd hh hs⟩

theorem progressSpec_fail_zero (d : DeployOut) (t l : List Ev) (k : Nat)
    (h : PctsLe t k) (hl : progressPcts l = [0]) (htr : d.trace = t ++ l)
    (hs : d.status ≠ 200) : ProgressSpec d :=
  ⟨by rw [htr]; exact progressOk_append_zero t l k h hl,
   fun hh => absurd hh hs⟩

theorem progressSpec_success (t l : List Ev) (k : Nat) (d : DeployOut)
    (h : PctsLe t k) (hk : k ≤ 100) (hl : progressPcts l = [100])
    (htr : d.trace = t ++ l) : ProgressSpec d := by
  constructor
  · rw [htr]
    refine progressOk_of_pctsLe _ 100 (pctsLe_extend t l k 100 h ?_ ?_ ?_)
    · rw [hl]; simp
    · rw [hl]; intro y hy; simp at hy; omega
    · rw [hl]; rfl
  · intro _
    rw [htr, progressPcts_append, hl]
    exact List.getLast?_concat _

/-- Appending a chunk with a single progress event `p ≥ k`. -/
theorem pctsLe_chunk_single (t l : List Ev) (k p : Nat) (h : PctsLe t k)
    (hk : k ≤ p) (hl : progressPcts l = [p]) : PctsLe (t ++ l) p := by
  refine pctsLe_extend t l k p h ?_ ?_ ?_
  · rw [hl]; simp
  · rw [hl]; intro y hy; simp at hy; omega
  · rw [hl]; rfl

/-- Appending a chunk with two progress events `k ≤ a ≤ b`. -/
theorem pctsLe_chunk_pair (t l : List Ev) (k a b : Nat) (h : PctsLe t k)
    (hk : k ≤ a) (hab : a ≤ b) (hl : progressPcts l = [a, b]) :
    PctsLe (t ++ l) b := by
  refine pctsLe_extend t l k b h ?_ ?_ ?_
  · rw [hl]; simp [List.chain'_pair]; omega
  · rw [hl]; intro y hy; simp at hy; omega
  · rw [hl]; rfl

theorem progress_d5StartInstance (o : AppOracle) (cn : String) (t : List Ev)
    (h : PctsLe t 85) : ProgressSpec (d5StartInstance o cn t) := by
  have h8 : PctsLe (t ++ [Ev.progress 85 "Creating and starting container...",
      Ev.createStart cn]) 85 :=
    pctsLe_chunk_single t _ 85 85 h (le_refl 85) (by simp [progressPcts])
  cases hst : o.start with
  | error e =>
    exact progressSpec_fail_pcts _ _ 85 h8 (by simp [d5StartInstance, hst])
      (by simp [d5StartInstance, hst])
  | ok st =>
    exact progressSpec_success _
      [Ev.progress 100 ("Deployment complete! Container is " ++ st)] 85 _ h8
      (by omega) (by simp [progressPcts]) (by simp [d5StartInstance, hst])

theorem progress_d5VerifyImage (o : AppOracle) (cn : String) (t : List Ev)
    (h : PctsLe t 50) : ProgressSpec (d5VerifyImage o cn t) := by
  cases hli : o.listImages with
  | error e =>
    exact progressSpec_fail_pcts _ t 50 h (by simp [d5VerifyImage, hli])
      (by simp [d5VerifyImage, hli])
  | ok imgs =>
    by_cases hany : (imgs.any fun img => (cn ++ ":latest") ∈ img.repoTags)
      = true
    · have heq : d5VerifyImage o cn t = d5StartInstance o cn t := by
        simp [d5VerifyImage, hli, hany]
      rw [heq]
      exact progress_d5StartInstance o cn t (pctsLe_mono t 50 85 h (by omega))
    · exact progressSpec_fail_zero _ t
        [Ev.progress 0 "Error: Image build failed"] 50 h
        (by simp [progressPcts]) (by simp [d5VerifyImage, hli, hany])
        (by simp [d5VerifyImage, hli, hany])

theorem progress_d5Build (o : AppOracle) (cn : String) (t : List Ev)
    (h : PctsLe t 40) : ProgressSpec (d5Build o cn t) := by
  have h7 : PctsLe (t ++ [Ev.progress 50 "Building Docker image..."] ++
      List.replicate (buildImageWithRetry o.bc o.fp 2).2 (Ev.build cn)) 50 := by
    refine pctsLe_silent _ _ 50 ?_ (progressPcts_replicate_build _ _)
    exact pctsLe_chunk_single t _ 40 50 h (by omega) (by simp [progressPcts])
  cases hb : (buildImageWithRetry o.bc o.fp 2).1 with
  | error e =>
    exact progressSpec_fail_pcts _ _ 50 h7 (by simp [d5Build, hb])
      (by simp [d5Build, hb])
  | ok logs =>
    have heq : d5Build o cn t = d5VerifyImage o cn
        (t ++ [Ev.progress 50 "Building Docker image..."] ++
          List.replicate (buildImageWithRetry o.bc o.fp 2).2 (Ev.build cn)) := by
      simp [d5Build, hb]
    rw [heq]
    exact progress_d5VerifyImage o cn _ h7

theorem progress_d5EnsureBase (o : AppOracle) (lang cn base : String)
    (t : List Ev) (h : PctsLe t 30) :
    ProgressSpec (d5EnsureBase o lang cn base t) := by
  have h5 : PctsLe (t ++ [Ev.progress 40
      ("Preparing Docker environment for " ++ lang ++ "...")] ++
      (if (ensureImageExists o.images o.pull base).2 then
        [Ev.pullImage base] else [])) 40 := by
    refine pctsLe_silent _ _ 40 ?_ (progressPcts_pull_ite _ _)
    exact pctsLe_chunk_single t _ 30 40 h (by omega) (by simp [progressPcts])
  cases he : (ensureImageExists o.images o.pull base).1 with
  | error e =>
    exact progressSpec_fail_pcts _ _ 40 h5 (by simp [d5EnsureBase, he])
      (by simp [d5EnsureBase, he])
  | ok b =>
    have heq : d5EnsureBase o lang cn base t = d5Build o cn
        (t ++ [Ev.progress 40
          ("Preparing Docker environment for " ++ lang ++ "...")] ++
          (if (ensureImageExists o.images o.pull base).2 then
            [Ev.pullImage base] else [])) := by
      simp [d5EnsureBase, he]
    rw [heq]
    exact progress_d5Build o cn _ h5

theorem progress_d5Files (o : AppOracle) (lang cn : String)
    (rc : Option String) (detect : String → Option Nat)
    (files : List FileEntry) (cp : Nat) (t : List Ev) (h : PctsLe t 15) :
    ProgressSpec (d5Files o lang cn rc detect files cp t) := by
  unfold d5Files
  dsimp only
  apply progress_d5EnsureBase
  refine pctsLe_fileEvents _ 15 _ ?_ (le_refl 15)
  exact pctsLe_chunk_single t _ 15 15 h (le_refl 15) (by simp [progressPcts])

theorem progress_deployApplication5 (tok pn : String)
    (ff : Option (List FileEntry)) (lang : String) (rc : Option String)
    (detect : String → Option Nat) (o : AppOracle) :
    ProgressSpec (deployApplication5 tok pn ff lang rc detect o) := by
  unfold deployApplication5
  dsimp only
  by_cases h1 : tok = ""
  · rw [if_pos h1]
    exact progressSpec_fail_pcts _ [] 0 (pctsLe_nil 0) rfl (by simp)
  rw [if_neg h1]
  by_cases h2 : pn = "" ∨ ff.isNone = true ∨ lang = ""
  · rw [if_pos h2]
    exact progressSpec_fail_pcts _ [] 0 (pctsLe_nil 0) rfl (by simp)
  rw [if_neg h2]
  cases hlc : o.listContainers with
  | error e =>
    dsimp only
    exact progressSpec_fail_pcts _ [] 0 (pctsLe_nil 0) rfl (by simp)
  | ok containers =>
    dsimp only
    by_cases hc : (containers.any fun c =>
        ("/" ++ ("deployify-" ++ pn)) ∈ c.names) = true
    · rw [if_pos hc]
      exact progressSpec_fail_pcts _ [] 0 (pctsLe_nil 0) rfl (by simp)
    rw [if_neg hc]
    cases hp : o.port with
    | error e =>
      dsimp only
      exact progressSpec_fail_pcts _
        [Ev.progress 5 "Generating container port..."] 5
        ⟨by simp [progressPcts], by simp [progressPcts]⟩ rfl (by simp)
    | ok cp =>
      dsimp only
      cases hr : o.reserve with
      | error e =>
        dsimp only
        exact progressSpec_fail_pcts _
          ([Ev.progress 5 "Generating container port..."] ++
            [Ev.allocPort cp, Ev.progress 10 "Creating Ngrok endpoint..."]) 10
          ⟨by simp [progressPcts], by simp [progressPcts]⟩ rfl (by simp)
      | ok ep =>
        dsimp only
        apply progress_d5Files
        refine ⟨?_, ?_⟩ <;> simp [progressPcts]

theorem progress_mongoCatch (o : MongoOracle) (pn : String)
    (sid : Option String) (t : List Ev) (m : String) (k : Nat)
    (h : PctsLe t k) : ProgressSpec (mongoCatch o pn sid t m) := by
  unfold mongoCatch
  dsimp only
  cases hc2 : o.cleanup2.lookup with
  | error e2 =>
    rw [runCleanup_error_prop o.cleanup2 ("mongo-express-" ++ pn) sid none e2
      hc2]
    exact ⟨progressOk_of_pctsLe t k h, fun hh => by simp at hh⟩
  | ok cl2 =>
    rw [runCleanup_none_ok o.cleanup2 cl2 ("mongo-express-" ++ pn) sid hc2]
    dsimp only
    have hbase : PctsLe (t ++ [Ev.cleanup ("mongo-express-" ++ pn)]) k :=
      pctsLe_silent t _ k h (by simp [progressPcts])
    cases hc3 : o.cleanup3.lookup with
    | error e3 =>
      rw [runCleanup_error_prop o.cleanup3 ("deployify-" ++ pn) sid
        (some ("Failed to deploy MongoDB: " ++ m)) e3 hc3]
      exact ⟨progressOk_of_pctsLe _ k hbase, fun hh => by simp at hh⟩
    | ok cl3 =>
      obtain ⟨ev, hev, hsh⟩ := runCleanup_some_ok o.cleanup3 cl3
        ("deployify-" ++ pn) sid ("Failed to deploy MongoDB: " ++ m) hc3
      rw [hev]
      dsimp only
      refine ⟨?_, fun hh => by simp at hh⟩
      rcases hsh with rfl | rfl
      · exact progressOk_of_pctsLe _ k
          (pctsLe_silent _ _ k hbase (by simp [progressPcts]))
      · exact progressOk_append_zero _ _ k hbase (by simp [progressPcts])

theorem progress_dmExpressStart (o : MongoOracle) (pn : String)
    (sid : Option String) (t : List Ev) (h : PctsLe t 70) :
    ProgressSpec (dmExpressStart o pn sid t) := by
  have h11 : PctsLe (t ++ [Ev.progress 85 "Starting Mongo Express container...",
      Ev.createStart ("mongo-express-" ++ pn)]) 85 :=
    pctsLe_chunk_single t _ 70 85 h (by omega) (by simp [progressPcts])
  cases hst : o.start2 with
  | error e =>
    have heq : dmExpressStart o pn sid t = mongoCatch o pn sid
        (t ++ [Ev.progress 85 "Starting Mongo Express container...",
          Ev.createStart ("mongo-express-" ++ pn)]) e := by
      simp [dmExpressStart, hst]
    rw [heq]
    exact progress_mongoCatch o pn sid _ e 85 h11
  | ok u =>
    exact progressSpec_success _ [Ev.progress 100 "MongoDB deployment complete!"]
      85 _ h11 (by omega) (by simp [progressPcts])
      (by simp [dmExpressStart, hst])

theorem progress_dmExpressBuild (o : MongoOracle) (pn : String)
    (sid : Option String) (t : List Ev) (h : PctsLe t 70) :
    ProgressSpec (dmExpressBuild o pn sid t) := by
  cases hb : o.build2 with
  | error e =>
    have heq : dmExpressBuild o pn sid t = mongoCatch o pn sid t e := by
      simp [dmExpressBuild, hb]
    rw [heq]
    exact progress_mongoCatch o pn sid t e 70 h
  | ok u =>
    have heq : dmExpressBuild o pn sid t = dmExpressStart o pn sid t := by
      simp [dmExpressBuild, hb]
    rw [heq]
    exact progress_dmExpressStart o pn sid t h

theorem progress_dmDomain (o : MongoOracle) (pn : String)
    (sid : Option String) (t : List Ev) (h : PctsLe t 60) :
    ProgressSpec (dmDomain o pn sid t) := by
  cases hd : o.reserveDomain with
  | error e =>
    cases hc1 : o.cleanup1.lookup with
    | error e2 =>
      have heq : dmDomain o pn sid t = mongoCatch o pn sid t e2 := by
        simp [dmDomain, hd,
          runCleanup_error_prop o.cleanup1 ("deployify-" ++ pn) sid none e2
            hc1]
      rw [heq]
      exact progress_mongoCatch o pn sid t e2 60 h
    | ok cl1 =>
      refine progressSpec_fail_pcts _
        (t ++ [Ev.cleanup ("deployify-" ++ pn)]) 60
        (pctsLe_silent t _ 60 h (by simp [progressPcts]))
        (by simp [dmDomain, hd,
          runCleanup_none_ok o.cleanup1 cl1 ("deployify-" ++ pn) sid hc1])
        (by simp [dmDomain, hd,
          runCleanup_none_ok o.cleanup1 cl1 ("deployify-" ++ pn) sid hc1])
  | ok domain =>
    have heq : dmDomain o pn sid t = dmExpressBuild o pn sid
        (t ++ [Ev.reserveEndpoint "http" domain,
          Ev.progress 70 "Building Mongo Express container image...",
          Ev.build ("mongo-express-" ++ pn)]) := by
      simp [dmDomain, hd]
    rw [heq]
    refine progress_dmExpressBuild o pn sid _ ?_
    exact pctsLe_chunk_single t _ 60 70 h (by omega) (by simp [progressPcts])

theorem progress_dmExpressPort (o : MongoOracle) (pn : String)
    (sid : Option String) (t : List Ev) (h : PctsLe t 50) :
    ProgressSpec (dmExpressPort o pn sid t) := by
  cases hp : o.port2 with
  | error e =>
    have heq : dmExpressPort o pn sid t = mongoCatch o pn sid t e := by
      simp [dmExpressPort, hp]
    rw [heq]
    exact progress_mongoCatch o pn sid t e 50 h
  | ok p =>
    have heq : dmExpressPort o pn sid t = dmDomain o pn sid
        (t ++ [Ev.allocPort p,
          Ev.progress 60 "Creating Ngrok domain for Mongo Express..."]) := by
      simp [dmExpressPort, hp]
    rw [heq]
    refine progress_dmDomain o pn sid _ ?_
    exact pctsLe_chunk_single t _ 50 60 h (by omega) (by simp [progressPcts])

theorem progress_dmExpressEnsure (o : MongoOracle) (pn : String)
    (sid : Option String) (t : List Ev) (h : PctsLe t 45) :
    ProgressSpec (dmExpressEnsure o pn sid t) := by
  have h8 : PctsLe (t ++ [Ev.progress 50 "Setting up Mongo Express..."] ++
      (if (ensureImageExists o.images2 o.pull2 "mongo-express:latest").2 then
        [Ev.pullImage "mongo-express:latest"] else [])) 50 := by
    refine pctsLe_silent _ _ 50 ?_ (progressPcts_pull_ite _ _)
    exact pctsLe_chunk_single t _ 45 50 h (by omega) (by simp [progressPcts])
  cases he : (ensureImageExists o.images2 o.pull2 "mongo-express:latest").1 with
  | error e =>
    have heq : dmExpressEnsure o pn sid t = mongoCatch o pn sid
        (t ++ [Ev.progress 50 "Setting up Mongo Express..."] ++
          (if (ensureImageExists o.images2 o.pull2 "mongo-express:latest").2
            then [Ev.pullImage "mongo-express:latest"] else [])) e := by
      simp [dmExpressEnsure, he]
    rw [heq]
    exact progress_mongoCatch o pn sid _ e 50 h8
  | ok b =>
    have heq : dmExpressEnsure o pn sid t = dmExpressPort o pn sid
        (t ++ [Ev.progress 50 "Setting up Mongo Express..."] ++
          (if (ensureImageExists o.images2 o.pull2 "mongo-express:latest").2
            then [Ev.pullImage "mongo-express:latest"] else [])) := by
      simp [dmExpressEnsure, he]
    rw [heq]
    exact progress_dmExpressPort o pn sid _ h8

theorem progress_dmMongoStart (o : MongoOracle) (pn : String)
    (sid : Option String) (t : List Ev) (h : PctsLe t 35) :
    ProgressSpec (dmMongoStart o pn sid t) := by
  have h6 : PctsLe (t ++ [Ev.progress 45 "Starting MongoDB container...",
      Ev.createStart ("deployify-" ++ pn)]) 45 :=
    pctsLe_chunk_single t _ 35 45 h (by omega) (by simp [progressPcts])
  cases hs : o.start1 with
  | error e =>
    have heq : dmMongoStart o pn sid t = mongoCatch o pn sid
        (t ++ [Ev.progress 45 "Starting MongoDB container...",
          Ev.createStart ("deployify-" ++ pn)]) e := by
      simp [dmMongoStart, hs]
    rw [heq]
    exact progress_mongoCatch o pn sid _ e 45 h6
  | ok u =>
    have heq : dmMongoStart o pn sid t = dmExpressEnsure o pn sid
        (t ++ [Ev.progress 45 "Starting MongoDB container...",
          Ev.createStart ("deployify-" ++ pn)]) := by
      simp [dmMongoStart, hs]
    rw [heq]
    exact progress_dmExpressEnsure o pn sid _ h6

theorem progress_dmMongoBuild (o : MongoOracle) (pn : String)
    (sid : Option String) (t : List Ev) (h : PctsLe t 25) :
    ProgressSpec (dmMongoBuild o pn sid t) := by
  have h5 : PctsLe (t ++
      [Ev.progress 30 "Creating MongoDB container with ngrok tunnel...",
       Ev.progress 35 "Building MongoDB container image...",
       Ev.build ("deployify-" ++ pn)]) 35 :=
    pctsLe_chunk_pair t _ 25 30 35 h (by omega) (by omega)
      (by simp [progressPcts])
  cases hb : o.build1 with
  | error e =>
    have heq : dmMongoBuild o pn sid t = mongoCatch o pn sid
        (t ++ [Ev.progress 30 "Creating MongoDB container with ngrok tunnel...",
          Ev.progress 35 "Building MongoDB container image...",
          Ev.build ("deployify-" ++ pn)]) e := by
      simp [dmMongoBuild, hb]
    rw [heq]
    exact progress_mongoCatch o pn sid _ e 35 h5
  | ok u =>
    have heq : dmMongoBuild o pn sid t = dmMongoStart o pn sid
        (t ++ [Ev.progress 30 "Creating MongoDB container with ngrok tunnel...",
          Ev.progress 35 "Building MongoDB container image...",
          Ev.build ("deployify-" ++ pn)]) := by
      simp [dmMongoBuild, hb]
    rw [heq]
    exact progress_dmMongoStart o pn sid _ h5

theorem progress_dmReserveAddr (o : MongoOracle) (pn : String)
    (sid : Option String) (t : List Ev) (h : PctsLe t 25) :
    ProgressSpec (dmReserveAddr o pn sid t) := by
  cases ha : o.reserveAddr with
  | error e =>
    exact progressSpec_fail_pcts _ t 25 h (by simp [dmReserveAddr, ha])
      (by simp [dmReserveAddr, ha])
  | ok addr =>
    have heq : dmReserveAddr o pn sid t = dmMongoBuild o pn sid
        (t ++ [Ev.reserveEndpoint "tcp" addr]) := by
      simp [dmReserveAddr, ha]
    rw [heq]
    exact progress_dmMongoBuild o pn sid _
      (pctsLe_silent t _ 25 h (by simp [progressPcts]))

theorem progress_dmMongoPort (o : MongoOracle) (pn : String)
    (sid : Option String) (t : List Ev) (h : PctsLe t 15) :
    ProgressSpec (dmMongoPort o pn sid t) := by
  have h3 : PctsLe (t ++ [Ev.progress 15 "Generating credentials..."]) 15 :=
    pctsLe_chunk_single t _ 15 15 h (le_refl 15) (by simp [progressPcts])
  cases hp : o.port1 with
  | error e =>
    have heq : dmMongoPort o pn sid t = mongoCatch o pn sid
        (t ++ [Ev.progress 15 "Generating credentials..."]) e := by
      simp [dmMongoPort, hp]
    rw [heq]
    exact progress_mongoCatch o pn sid _ e 15 h3
  | ok p =>
    have heq : dmMongoPort o pn sid t = dmReserveAddr o pn sid
        ((t ++ [Ev.progress 15 "Generating credentials..."]) ++
          [Ev.allocPort p,
           Ev.progress 25 "Creating Ngrok reserved address for MongoDB..."]) := by
      simp [dmMongoPort, hp]
    rw [heq]
    refine progress_dmReserveAddr o pn sid _ ?_
    exact pctsLe_chunk_single _ _ 15 25 h3 (by omega) (by simp [progressPcts])

theorem progress_dmEnsureMongo (o : MongoOracle) (pn : String)
    (sid : Option String) (t : List Ev) (h : PctsLe t 5) :
    ProgressSpec (dmEnsureMongo o pn sid t) := by
  have h2 : PctsLe (t ++ [Ev.progress 5 "Checking MongoDB image..."] ++
      (if (ensureImageExists o.images1 o.pull1 "mongo:6.0").2 then
        [Ev.pullImage "mongo:6.0"] else [])) 5 := by
    refine pctsLe_silent _ _ 5 ?_ (progressPcts_pull_ite _ _)
    exact pctsLe_chunk_single t _ 5 5 h (le_refl 5) (by simp [progressPcts])
  cases he : (ensureImageExists o.images1 o.pull1 "mongo:6.0").1 with
  | error e =>
    have heq : dmEnsureMongo o pn sid t = mongoCatch o pn sid
        (t ++ [Ev.progress 5 "Checking MongoDB image..."] ++
          (if (ensureImageExists o.images1 o.pull1 "mongo:6.0").2 then
            [Ev.pullImage "mongo:6.0"] else [])) e := by
      simp [dmEnsureMongo, he]
    rw [heq]
    exact progress_mongoCatch o pn sid _ e 5 h2
  | ok b =>
    have heq : dmEnsureMongo o pn sid t = dmMongoPort o pn sid
        (t ++ [Ev.progress 5 "Checking MongoDB image..."] ++
          (if (ensureImageExists o.images1 o.pull1 "mongo:6.0").2 then
            [Ev.pullImage "mongo:6.0"] else [])) := by
      simp [dmEnsureMongo, he]
    rw [heq]
    exact progress_dmMongoPort o pn sid _ (pctsLe_mono _ 5 15 h2 (by omega))

theorem progress_deployMongoDB (tok pn : String) (sid : Option String)
    (o : MongoOracle) : ProgressSpec (deployMongoDB tok pn sid o) := by
  unfold deployMongoDB
  dsimp only
  by_cases h1 : pn = ""
  · rw [if_pos h1]
    exact progressSpec_fail_pcts _ [] 0 (pctsLe_nil 0) rfl (by simp)
  rw [if_neg h1]
  by_cases h2 : tok = ""
  · rw [if_pos h2]
    exact progressSpec_fail_pcts _ [] 0 (pctsLe_nil 0) rfl (by simp)
  rw [if_neg h2]
  cases hlc : o.listContainers with
  | error e =>
    dsimp only
    exact progress_mongoCatch o pn sid [] e 0 (pctsLe_nil 0)
  | ok containers =>
    dsimp only
    by_cases hc : (containers.any fun c =>
        ("/" ++ ("deployify-" ++ pn)) ∈ c.names) = true
    · rw [if_pos hc]
      exact progressSpec_fail_pcts _ [] 0 (pctsLe_nil 0) rfl (by simp)
    rw [if_neg hc]
    exact progress_dmEnsureMongo o pn sid [] (pctsLe_nil 5)

/-- Concrete oracle in which the ngrok reservation of part_005
`deployApplication` fails; everything before it succeeds. -/
def reserveFailOracle : AppOracle :=
  ⟨Except.ok [], Except.ok 30001, Except.error "quota exceeded", [],
   Except.ok (), fun _ => Except.ok (), fun _ => Except.ok "logs",
   Except.ok [], Except.ok "running"⟩

/-- Concrete oracle in which every external call of part_005
`deployApplication` succeeds, with the built tag present afterwards. -/
def benignOracle : AppOracle :=
  ⟨Except.ok [], Except.ok 30001, Except.ok "deployify-p.ngrok.app", [],
   Except.ok (), fun _ => Except.ok (), fun _ => Except.ok "logs",
   Except.ok [⟨["deployify-p:latest"]⟩], Except.ok "running"⟩

/-- Concrete oracle in which every external call of `deployMongoDB`
succeeds. -/
def mongoOkOracle : MongoOracle :=
  ⟨Except.ok [], [], Except.ok (), Except.ok 30005,
   Except.ok "1.tcp.ngrok.io:12345", Except.ok (), Except.ok (),
   [], Except.ok (), Except.ok 30006, Except.ok "deployify-p.ngrok.app",
   Except.ok (), Except.ok (),
   ⟨Except.ok [], false, false⟩, ⟨Except.ok [], false, false⟩,
   ⟨Except.ok [], false, false⟩⟩

/-- Counterexample to C8: a failing deployment whose terminal progress
event is neither 100 nor the `(0, message)` failure signal — when the
ngrok reservation fails, part_005 `deployApplication` returns the 500
response without emitting any terminal progress event, so the last
event sent carries percentage 10. -/
theorem progress_terminal_counterexample :
    (deployApplication5 "tok" "p" (some []) "nodejs" none (fun _ => none)
        reserveFailOracle).status = 500 ∧
      progressPcts (deployApplication5 "tok" "p" (some []) "nodejs" none
        (fun _ => none) reserveFailOracle).trace = [5, 10] ∧
      (progressPcts (deployApplication5 "tok" "p" (some []) "nodejs" none
        (fun _ => none) reserveFailOracle).trace).getLast? = some 10 :=
  ⟨rfl, rfl, rfl⟩

/-- C8 (amended): within any single deployment — part_005
`deployApplication` or part_001 `deployMongoDB`, over every oracle —
the progress percentages sent to the session are non-decreasing apart
from a possible terminal-failure `(0, message)` event, and a 200
response ends with percentage 100; however a failure response is not
always accompanied by a terminal progress event (several failure paths
return after a mid-progress event, as the counterexample shows). -/
theorem progress_monotone_amended (tok pn : String)
    (ff : Option (List FileEntry)) (lang : String) (rc : Option String)
    (detect : String → Option Nat) (o : AppOracle) (tok2 pn2 : String)
    (sid : Option String) (o2 : MongoOracle) :
    (ProgressOk (deployApplication5 tok pn ff lang rc detect o).trace ∧
      ((deployApplication5 tok pn ff lang rc detect o).status = 200 →
        (progressPcts (deployApplication5 tok pn ff lang rc detect
          o).trace).getLast? = some 100)) ∧
    (ProgressOk (deployMongoDB tok2 pn2 sid o2).trace ∧
      ((deployMongoDB tok2 pn2 sid o2).status = 200 →
        (progressPcts (deployMongoDB tok2 pn2 sid o2).trace).getLast? =
          some 100)) :=
  ⟨progress_deployApplication5 tok pn ff lang rc detect o,
   progress_deployMongoDB tok2 pn2 sid o2⟩

/-- Witness for C8 (amended): at benign oracles both pipelines succeed
with a final percentage of exactly 100, and both traces are
non-decreasing. -/
theorem progress_monotone_amended_witness :
    ProgressOk (deployApplication5 "tok" "p" (some []) "nodejs" none
      (fun _ => none) benignOracle).trace ∧
    (progressPcts (deployApplication5 "tok" "p" (some []) "nodejs" none
      (fun _ => none) benignOracle).trace).getLast? = some 100 ∧
    ProgressOk (deployMongoDB "tok" "p" (some "s1") mongoOkOracle).trace ∧
    (progressPcts (deployMongoDB "tok" "p" (some "s1")
      mongoOkOracle).trace).getLast? = some 100 :=
  ⟨(progress_monotone_amended "tok" "p" (some []) "nodejs" none
      (fun _ => none) benignOracle "tok" "p" (some "s1") mongoOkOracle).1.1,
   (progress_monotone_amended "tok" "p" (some []) "nodejs" none
      (fun _ => none) benignOracle "tok" "p" (some "s1") mongoOkOracle).1.2 rfl,
   (progress_monotone_amended "tok" "p" (some []) "nodejs" none
      (fun _ => none) benignOracle "tok" "p" (some "s1") mongoOkOracle).2.1,
   (progress_monotone_amended "tok" "p" (some []) "nodejs" none
      (fun _ => none) benignOracle "tok" "p" (some "s1") mongoOkOracle).2.2 rfl⟩

end Deployify
